import Mathlib

/-!
# JobFit AI — verification of spec claims against the code

Shallow embedding of the JobFit AI repository.  The frontend TypeScript
modules present in the repository (display formatting utilities, the
registration page validation, the API client with token refresh) are
embedded directly from their source.  The backend optimization pipeline
(Pipeline Controller, Stage Agents, Orchestration Service) is not present
in the repository source tree — only its documentation and plans are — so
those components are modelled from the specification text, as marked on
each definition.
-/

namespace JobFit

/-! ## Frontend: display formatting utilities

Embedded from frontend/src/lib/utils/format.ts.  All three functions are
TODO stubs in the source: each ignores its argument and returns the
empty string. -/

/-- From format.ts: `formatScore(score: number): string` — body is
`return ""`. -/
def formatScore (_score : ℚ) : String := ""

/-- From format.ts: `formatDate(date: string): string` — body is
`return ""`. -/
def formatDate (_date : String) : String := ""

/-- From format.ts: `formatFileSize(bytes: number): string` — body is
`return ""`. -/
def formatFileSize (_bytes : ℚ) : String := ""

/-! ## Frontend: registration page validation

Embedded from frontend/src/app/(auth)/register/page.tsx: the component
state relevant to validation (email, password, confirmPassword,
tenantName), the `validate` function, and the decision made by
`handleSubmit` (call `register(email, password, tenantName.trim())` iff
`validate()` returned true). -/

/-- The four text fields of the registration form. -/
structure RegForm where
  email : String
  password : String
  confirmPassword : String
  tenantName : String
  deriving Repr, DecidableEq

/-- A character admitted by the character class `[^\s@]` of the page's
email regular expression: neither whitespace nor the at sign. -/
def validEmailChar (c : Char) : Bool := !c.isWhitespace && !(c = '@')

/-- Whether a string is matched by the anchored regular expression
`^[^\s@]+@[^\s@]+\.[^\s@]+$` used by the registration page.  A match is a
decomposition `A @ D` with `A` a nonempty run of `[^\s@]` characters
(so `A` holds no at sign and `takeWhile` recovers it exactly), and
`D = B . C` with `B`, `C` nonempty runs of `[^\s@]` characters; since the
class admits dots, `D` matches iff it is all `[^\s@]` characters and some
dot occurs at an index between 1 and `D.length - 2`. -/
def emailPatternTest (s : String) : Bool :=
  let cs := s.toList
  let a := cs.takeWhile (fun c => !(c = '@'))
  match cs.dropWhile (fun c => !(c = '@')) with
  | [] => false
  | _ :: d =>
      !a.isEmpty && a.all validEmailChar && d.all validEmailChar &&
        ((d.drop 1).take (d.length - 2)).contains '.'

/-- The per-field error messages computed by `validate` on the
registration page; a field maps to `none` when its checks pass. -/
structure RegErrors where
  email : Option String
  password : Option String
  confirmPassword : Option String
  tenantName : Option String
  deriving Repr, DecidableEq

/-- From register/page.tsx `validate`: builds the `next` error record
field by field, mirroring each `if`/`else if` chain of the source. -/
def validateReg (f : RegForm) : RegErrors where
  email :=
    if f.email.trim = "" then some "Email is required"
    else if !emailPatternTest f.email then some "Invalid email address"
    else none
  password :=
    if f.password = "" then some "Password is required"
    else if f.password.length < 8 then some "Password must be at least 8 characters"
    else none
  confirmPassword :=
    if !(f.password = f.confirmPassword) then some "Passwords do not match"
    else none
  tenantName :=
    if f.tenantName.trim = "" then some "Organization name is required"
    else if f.tenantName.trim.length < 2 then
      some "Organization name must be at least 2 characters"
    else none

/-- `validate` returns true iff the error record has no keys, i.e. every
field's error is absent. -/
def regErrorsClean (e : RegErrors) : Bool :=
  e.email.isNone && e.password.isNone && e.confirmPassword.isNone && e.tenantName.isNone

/-- From register/page.tsx `handleSubmit`: when `validate()` fails no
registration request is made (`none`); otherwise `register` is invoked
with `(email, password, tenantName.trim())`. -/
def handleSubmitReg (f : RegForm) : Option (String × String × String) :=
  if regErrorsClean (validateReg f) then some (f.email, f.password, f.tenantName.trim)
  else none

/-! ## Frontend: API client with JWT injection and refresh-on-401

Embedded from frontend/src/lib/api/client.ts.  The network is modelled as
an oracle (`FetchEnv`) giving the response to the first send of the
request, the outcome of the refresh-endpoint call, and the response to
the re-sent request.  Callback invocations (`onTokenRefreshed`,
`onAuthFailure`) and every fetch are recorded as events so the claims
about side effects are statable. -/

/-- Wire format of the token endpoints, from types/auth.ts. -/
structure TokenResponse where
  access_token : String
  refresh_token : String
  token_type : String
  expires_in : Nat
  deriving Repr, DecidableEq

/-- JavaScript truthiness of a nullable string: `null`/`undefined` and
the empty string are falsy. -/
def truthy : Option String → Bool
  | none => false
  | some s => !(s = "")

/-- An HTTP response as the client observes it: status code, and the
`detail` and `message` fields of the JSON error body (`none` models both
an absent field and an unparseable body, matching
`response.json().catch(() => null)` followed by `?.`). -/
structure HttpResponse where
  status : Nat
  body_detail : Option String
  body_message : Option String
  deriving Repr, DecidableEq

/-- The fetch-API `Response.ok` predicate: status in the range 200–299. -/
def respOk (r : HttpResponse) : Bool := 200 ≤ r.status && r.status < 300

/-- Outcome of the refresh-endpoint call in `executeRefresh`: the fetch
(or its body parse) threw, or an HTTP response arrived (`resp_ok`
mirrors `response.ok`; `tokens` is its parsed body, meaningful when ok). -/
inductive RefreshNet
  | throws
  | responds (resp_ok : Bool) (tokens : TokenResponse)
  deriving Repr, DecidableEq

/-- Network oracle for one `ApiClient.request` call. -/
structure FetchEnv where
  firstResponse : HttpResponse
  refreshNet : RefreshNet
  retryResponse : HttpResponse
  deriving Repr, DecidableEq

/-- Observable actions of the client: a send of the caller's request
(with the Authorization header it carried, if any), a POST to the
refresh endpoint, and the two config callbacks. -/
inductive ClientEvent
  | sentRequest (authHeader : Option String)
  | sentRefresh (refresh_token : String)
  | tokenRefreshed (tokens : TokenResponse)
  | authFailure
  deriving Repr, DecidableEq

/-- The token state the client reads through `getAccessToken` /
`getRefreshToken`. -/
structure ClientState where
  accessToken : Option String
  refreshToken : Option String
  deriving Repr, DecidableEq

/-- Result of `ApiClient.request`: the promise resolves with the parsed
body of the final ok response, or rejects with `ApiError(status,
message)`. -/
inductive RequestOutcome
  | success (resp : HttpResponse)
  | apiError (status : Nat) (message : String)
  deriving Repr, DecidableEq

/-- From client.ts `request`: the Authorization header set when
`getAccessToken()` is truthy. -/
def authHeaderFor (t : Option String) : Option String :=
  if truthy t then some ("Bearer " ++ t.getD "") else none

/-- From client.ts `request`: the thrown message for a non-ok response:
`errorBody?.detail ?? errorBody?.message ?? 'Request failed: <status>'`. -/
def errMessage (r : HttpResponse) : String :=
  r.body_detail.getD (r.body_message.getD ("Request failed: " ++ toString r.status))

/-- From client.ts `executeRefresh`: returns `null` when no refresh token
is stored; otherwise POSTs the refresh endpoint; a non-ok response or a
thrown fetch invokes `onAuthFailure` and yields `null`; an ok response
reports the new tokens via `onTokenRefreshed` and yields them. -/
def executeRefresh (cs : ClientState) (env : FetchEnv) :
    Option TokenResponse × List ClientEvent :=
  if truthy cs.refreshToken then
    let rt := cs.refreshToken.getD ""
    match env.refreshNet with
    | .throws => (none, [.sentRefresh rt, .authFailure])
    | .responds ok tokens =>
        if ok then (some tokens, [.sentRefresh rt, .tokenRefreshed tokens])
        else (none, [.sentRefresh rt, .authFailure])
  else (none, [])

/-- From client.ts `request`, lines 50–65: send with the injected Bearer
header; on a 401 with a truthy refresh token, try a refresh and, when it
succeeds, re-send the request exactly once with the new access token.
Returns the final response together with the event trace. -/
def clientExchange (cs : ClientState) (env : FetchEnv) :
    HttpResponse × List ClientEvent :=
  if env.firstResponse.status = 401 && truthy cs.refreshToken then
    match executeRefresh cs env with
    | (some tokens, evr) =>
        (env.retryResponse,
          ClientEvent.sentRequest (authHeaderFor cs.accessToken) ::
            (evr ++ [ClientEvent.sentRequest (some ("Bearer " ++ tokens.access_token))]))
    | (none, evr) =>
        (env.firstResponse, ClientEvent.sentRequest (authHeaderFor cs.accessToken) :: evr)
  else (env.firstResponse, [ClientEvent.sentRequest (authHeaderFor cs.accessToken)])

/-- From client.ts `request`, lines 67–79: after the exchange, either
resolve with the ok response or throw `ApiError` carrying the final
status and the `errMessage` rule. -/
def clientRequest (cs : ClientState) (env : FetchEnv) :
    RequestOutcome × List ClientEvent :=
  let step := clientExchange cs env
  if respOk step.1 then (.success step.1, step.2)
  else (.apiError step.1.status (errMessage step.1), step.2)

/-! ## Backend: optimization pipeline, modelled from the spec

The repository source tree holds no backend implementation — only the
frontend and design documents — so the Pipeline Controller, the five
Stage Agents and the Orchestration Service are modelled from the
specification text (sections 3, 4, 6, 7).  Each definition's doc comment
records which spec passage it follows.  The text-generation backend and
the retrieval index are oracles (`Env`): per request they yield a raw
output (either parsed to the stage's schema or malformed) plus a
token/latency usage figure. -/

/-- Modelled from the spec: a resume content chunk (section kind, text,
position index); the backend chunk type is missing from the source. -/
structure Chunk where
  kind : String
  text : String
  position : Nat
  deriving Repr, DecidableEq

/-- Modelled from the spec: the Requirement Extractor's structured
requirement set (§3), missing from the source. -/
structure Requirements where
  hard_skills : List String
  soft_skills : List String
  responsibilities : List String
  qualifications : List String
  keyword_weights : List (String × ℚ)
  deriving Repr, DecidableEq

/-- Modelled from the spec: a retrieved chunk with relevance score (§3),
missing from the source. -/
structure RankedChunk where
  kind : String
  text : String
  relevance : ℚ
  deriving Repr, DecidableEq

/-- Modelled from the spec: priority label of a missing skill (§3). -/
inductive Priority
  | high | medium | low
  deriving Repr, DecidableEq

/-- Modelled from the spec: the Gap Analyzer's report (§3), missing from
the source. -/
structure GapReport where
  missing_skills : List (String × Priority)
  recommendations : List String
  transferable_skills : List String
  deriving Repr, DecidableEq

/-- The empty gap report, the Gap Analyzer's documented fallback. -/
def emptyGapReport : GapReport := ⟨[], [], []⟩

/-- Modelled from the spec: the Compatibility Scorer's output — overall
score plus the four-way breakdown (§3). -/
structure ScoreSet where
  overall : ℚ
  keyword_coverage : ℚ
  skills_alignment : ℚ
  experience_relevance : ℚ
  formatting_quality : ℚ
  deriving Repr, DecidableEq

/-- Clamp a value into [0, 1]. -/
def clamp01 (x : ℚ) : ℚ := max 0 (min 1 x)

/-- Modelled from the spec: every score value is clamped into [0.0, 1.0]
before being stored (§3 invariants). -/
def clampScores (r : ScoreSet) : ScoreSet :=
  ⟨clamp01 r.overall, clamp01 r.keyword_coverage, clamp01 r.skills_alignment,
    clamp01 r.experience_relevance, clamp01 r.formatting_quality⟩

/-- The Compatibility Scorer's documented fallback: all scores 0.5. -/
def fallbackScores : ScoreSet := ⟨1/2, 1/2, 1/2, 1/2, 1/2⟩

/-- Modelled from the spec: the Pipeline Controller's stage names (§4.4). -/
inductive Stage
  | RequirementExtraction
  | ChunkRetrieval
  | ContentRewriting
  | CompatibilityScoring
  | GapAnalysis
  | ResultAggregation
  deriving Repr, DecidableEq

/-- Modelled from the spec: an accumulated non-fatal error record (stage
name, error kind, message, whether the pipeline continued) (§3). -/
structure ErrorRecord where
  stage : Stage
  kind : String
  message : String
  continued : Bool
  deriving Repr, DecidableEq

/-- Modelled from the spec: the named configuration options (§6), plus
the Requirement Extractor's minimum job-description length (§4.3, no
default given in the spec). -/
structure Config where
  score_threshold : ℚ := 3/4
  max_rewrite_attempts : Nat := 2
  top_k_chunks : Nat := 6
  max_total_tokens : Nat := 7000
  max_pipeline_latency_ms : Nat := 55000
  max_model_calls : Nat := 6
  min_jd_length : Nat := 50
  deriving Repr, DecidableEq

/-- Modelled from the spec: a structured model request — role-tagged
content built from the state, the score breakdown made available to a
rewrite retry (§4.4), and any stricter follow-up instructions appended
by the controller on re-prompt (§4.3). -/
structure Request where
  stage : Stage
  payload : String
  score_context : Option ScoreSet := none
  followup : List String := []
  deriving Repr, DecidableEq

/-- The stricter follow-up instruction appended on re-prompt (§4.3);
exact prompt wording is explicitly not fixed by the spec. -/
def stricterFollowup : String := "Return output that strictly conforms to the stage output schema."

/-- Re-prompt transformation: the same request with the stricter
follow-up instruction appended. -/
def stricter (r : Request) : Request :=
  { r with followup := r.followup ++ [stricterFollowup] }

/-- A stage backend's raw output: generated text that either parses to
the stage's schema or is malformed. -/
inductive RawOut (α : Type)
  | malformed (raw_text : String)
  | parsed (value : α) (raw_text : String)
  deriving Repr, DecidableEq

/-- The raw generated text of a backend output. -/
def rawText {α : Type} : RawOut α → String
  | .malformed t => t
  | .parsed _ t => t

/-- Token count and wall-clock duration reported for one backend call. -/
structure Usage where
  tokens : Nat
  ms : Nat
  deriving Repr, DecidableEq

/-- Oracle for the five stage backends: Model Invoker behaviour for the
four generation stages and Retrieval Index behaviour for the retriever,
each a function of the full request (so stubbed behaviour may differ
between the first attempt and the stricter re-prompt). -/
structure Env where
  extract : Request → RawOut Requirements × Usage
  retrieve : Request → RawOut (List RankedChunk) × Usage
  rewrite : Request → RawOut (List String) × Usage
  score : Request → RawOut ScoreSet × Usage
  gap : Request → RawOut GapReport × Usage

/-- Modelled from the spec: `PipelineState` (§3) — inputs, per-stage
outputs, control fields, budget accounting — extended with the
observable trace fields (`stage_trace`, `invoke_log`) that make the
temporal claims statable, and the `budget_exceeded` short-circuit flag. -/
structure PipelineState where
  tenant_id : String
  requester_id : String
  run_id : String
  jd_text : String
  resume_chunks : List Chunk
  requirements : Option Requirements := none
  retrieved_chunks : Option (List RankedChunk) := none
  rewritten_bullets : Option (List String) := none
  rewrite_attempts : Nat := 0
  scores : Option ScoreSet := none
  gap_report : Option GapReport := none
  score_threshold : ℚ
  max_rewrite_attempts : Nat
  current_stage : Stage := .RequirementExtraction
  errors : List ErrorRecord := []
  stage_tokens : List (Stage × Nat) := []
  total_tokens : Nat := 0
  elapsed_ms : Nat := 0
  model_calls : Nat := 0
  stage_trace : List Stage := []
  invoke_log : List Request := []
  budget_exceeded : Bool := false
  deriving Repr, DecidableEq

/-- Modelled from the spec (§4.3): the controller's driving of one stage
agent: invoke on the built request; if `validate` rejects, re-invoke the
same stage exactly once more with the stricter follow-up appended; a
second rejection reports failure.  Yields the validated value (if any),
the raw text of the last attempt (used by the Content Rewriter
fallback), and the list of calls made (request and usage). -/
def runAgentTwice {α : Type} (backend : Request → RawOut α × Usage)
    (req : Request) : Option α × String × List (Request × Usage) :=
  match backend req with
  | (.parsed v t, u1) => (some v, t, [(req, u1)])
  | (.malformed _, u1) =>
      let req2 := stricter req
      match backend req2 with
      | (.parsed v t, u2) => (some v, t, [(req, u1), (req2, u2)])
      | (.malformed t2, u2) => (none, t2, [(req, u1), (req2, u2)])

/-- Record entering a stage: set the current stage name and append it to
the execution trace. -/
def enterStage (st : PipelineState) (sg : Stage) : PipelineState :=
  { st with current_stage := sg, stage_trace := st.stage_trace ++ [sg] }

/-- Account the calls one stage made: add tokens to the running total
and the per-stage token list, add duration to elapsed wall clock, count
model invocations (the Retrieval Index makes no generation calls, §4.2),
and log the requests. -/
def applyCalls (st : PipelineState) (sg : Stage) (countsModel : Bool)
    (calls : List (Request × Usage)) : PipelineState :=
  let toks := (calls.map (fun c => c.2.tokens)).sum
  { st with
    total_tokens := st.total_tokens + toks
    stage_tokens := st.stage_tokens ++ [(sg, toks)]
    elapsed_ms := st.elapsed_ms + (calls.map (fun c => c.2.ms)).sum
    model_calls := st.model_calls + (if countsModel then calls.length else 0)
    invoke_log := st.invoke_log ++ calls.map (fun c => c.1) }

/-- A non-fatal schema-validation error record (§7). -/
def schemaErrorRecord (sg : Stage) : ErrorRecord :=
  { stage := sg, kind := "SchemaValidationError"
    message := "output failed schema validation twice; fallback applied"
    continued := true }

/-- Request built by the Requirement Extractor from the state (§4.3):
carries the raw job-description text. -/
def extractRequest (st : PipelineState) : Request :=
  { stage := .RequirementExtraction, payload := st.jd_text }

/-- Request built by the Chunk Retriever: query terms from the extracted
requirement keywords. -/
def retrieveRequest (st : PipelineState) : Request :=
  { stage := .ChunkRetrieval
    payload := String.intercalate " "
      ((st.requirements.map Requirements.hard_skills).getD []) }

/-- Request built by the Content Rewriter: the chunks to rewrite, with
the current score breakdown attached when one exists so a retry can
target the weakest sub-score (§4.4). -/
def rewriteRequest (st : PipelineState) : Request :=
  { stage := .ContentRewriting
    payload := String.intercalate "\n"
      (((st.retrieved_chunks.getD []).map RankedChunk.text) ++
        (st.resume_chunks.map Chunk.text))
    score_context := st.scores }

/-- Request built by the Compatibility Scorer: the rewritten bullets
against the job description. -/
def scoreRequest (st : PipelineState) : Request :=
  { stage := .CompatibilityScoring
    payload := String.intercalate "\n"
      (st.jd_text :: (st.rewritten_bullets.getD [])) }

/-- Request built by the Gap Analyzer: requirements against rewritten
content. -/
def gapRequest (st : PipelineState) : Request :=
  { stage := .GapAnalysis
    payload := String.intercalate " "
      (((st.requirements.map Requirements.hard_skills).getD []) ++
        (st.rewritten_bullets.getD [])) }

/-- Modelled from the spec (§4.3): the Requirement Extractor stage.  The
flag is false when validation rejected twice — fatal for this stage, the
pipeline aborts. -/
def runExtractorStage (_cfg : Config) (env : Env) (st : PipelineState) :
    PipelineState × Bool :=
  let st1 := enterStage st .RequirementExtraction
  match runAgentTwice env.extract (extractRequest st1) with
  | (res, _, calls) =>
      let st2 := applyCalls st1 .RequirementExtraction true calls
      match res with
      | some r => ({ st2 with requirements := some r }, true)
      | none => (st2, false)

/-- Modelled from the spec (§4.3, §4.2): the Chunk Retriever stage;
results are capped at the configured count; on unrecoverable validation
failure the fallback is the empty chunk list plus a non-fatal error
record. -/
def runRetrieverStage (cfg : Config) (env : Env) (st : PipelineState) :
    PipelineState :=
  let st1 := enterStage st .ChunkRetrieval
  match runAgentTwice env.retrieve (retrieveRequest st1) with
  | (res, _, calls) =>
      let st2 := applyCalls st1 .ChunkRetrieval false calls
      match res with
      | some r => { st2 with retrieved_chunks := some (r.take cfg.top_k_chunks) }
      | none =>
          { st2 with retrieved_chunks := some []
                     errors := st2.errors ++ [schemaErrorRecord .ChunkRetrieval] }

/-- Modelled from the spec (§4.3): the Content Rewriter stage; on
unrecoverable validation failure the fallback wraps the raw text as a
single-element bullet list plus a non-fatal error record. -/
def runRewriterStage (_cfg : Config) (env : Env) (st : PipelineState) :
    PipelineState :=
  let st1 := enterStage st .ContentRewriting
  match runAgentTwice env.rewrite (rewriteRequest st1) with
  | (res, lastRaw, calls) =>
      let st2 := applyCalls st1 .ContentRewriting true calls
      match res with
      | some bullets => { st2 with rewritten_bullets := some bullets }
      | none =>
          { st2 with rewritten_bullets := some [lastRaw]
                     errors := st2.errors ++ [schemaErrorRecord .ContentRewriting] }

/-- Modelled from the spec (§4.3, §3): the Compatibility Scorer stage;
every score value is clamped into [0, 1] before being stored; on
unrecoverable validation failure all scores default to 0.5 plus a
non-fatal error record. -/
def runScorerStage (_cfg : Config) (env : Env) (st : PipelineState) :
    PipelineState :=
  let st1 := enterStage st .CompatibilityScoring
  match runAgentTwice env.score (scoreRequest st1) with
  | (res, _, calls) =>
      let st2 := applyCalls st1 .CompatibilityScoring true calls
      match res with
      | some raw => { st2 with scores := some (clampScores raw) }
      | none =>
          { st2 with scores := some fallbackScores
                     errors := st2.errors ++ [schemaErrorRecord .CompatibilityScoring] }

/-- Modelled from the spec (§4.3): the Gap Analyzer stage; on
unrecoverable validation failure the fallback is the empty gap report
plus a non-fatal error record. -/
def runGapStage (_cfg : Config) (env : Env) (st : PipelineState) :
    PipelineState :=
  let st1 := enterStage st .GapAnalysis
  match runAgentTwice env.gap (gapRequest st1) with
  | (res, _, calls) =>
      let st2 := applyCalls st1 .GapAnalysis true calls
      match res with
      | some g => { st2 with gap_report := some g }
      | none =>
          { st2 with gap_report := some emptyGapReport
                     errors := st2.errors ++ [schemaErrorRecord .GapAnalysis] }

/-- Modelled from the spec (§4.4): a budget guardrail is breached when
the cumulative token count, the elapsed wall-clock time, or the
cumulative model-invocation count exceeds its configured ceiling. -/
def budgetBreached (cfg : Config) (st : PipelineState) : Bool :=
  cfg.max_total_tokens < st.total_tokens ||
    cfg.max_pipeline_latency_ms < st.elapsed_ms ||
      cfg.max_model_calls < st.model_calls

/-- Record a guardrail breach: set the short-circuit flag and append the
non-fatal budget-exceeded error entry (§4.4, §7). -/
def markBudget (st : PipelineState) : PipelineState :=
  { st with budget_exceeded := true
            errors := st.errors ++
              [{ stage := st.current_stage, kind := "BudgetExceeded"
                 message := "budget exceeded", continued := true }] }

/-- Guardrail check between stages (§4.4): once the short-circuit flag is
set no further stage executes; a fresh breach is recorded; otherwise the
next stage runs. -/
def guardThen (cfg : Config) (st : PipelineState)
    (next : PipelineState → PipelineState) : PipelineState :=
  if st.budget_exceeded then st
  else if budgetBreached cfg st then markBudget st
  else next st

/-- The two outgoing edges of the scoring decision point (§4.4). -/
inductive ScoreDecision
  | toGapAnalysis
  | retryRewrite
  deriving Repr, DecidableEq

/-- Modelled from the spec (§4.4), transition logic at the scoring
decision point: proceed to GapAnalysis when the score meets the
threshold; otherwise retry the rewrite while attempts remain; otherwise
proceed to GapAnalysis anyway (expected, non-error). -/
def score_check (threshold : ℚ) (max_attempts : Nat) (score : ℚ)
    (attempts : Nat) : ScoreDecision :=
  if threshold ≤ score then .toGapAnalysis
  else if attempts < max_attempts then .retryRewrite
  else .toGapAnalysis

/-- Increment the rewrite-attempt counter (the retry edge of §4.4). -/
def bumpAttempts (st : PipelineState) : PipelineState :=
  { st with rewrite_attempts := st.rewrite_attempts + 1 }

/-- The overall compatibility score currently stored in the state (0
when the scorer has not run yet). -/
def overallScore (st : PipelineState) : ℚ :=
  match st.scores with
  | some s => s.overall
  | none => 0

/-- Modelled from the spec (§4.4): the ContentRewriting →
CompatibilityScoring → score-check loop, with the budget guardrail
checked after each stage completes; on `retryRewrite` the attempt
counter is incremented and control returns to ContentRewriting.  `fuel`
bounds the recursion; the controller supplies `max_rewrite_attempts + 1`,
which the retry guard `attempts < max_attempts` makes sufficient. -/
def rewriteScoreLoop (cfg : Config) (env : Env) :
    Nat → PipelineState → PipelineState
  | 0, st => st
  | fuel + 1, st =>
      let st1 := runRewriterStage cfg env st
      if budgetBreached cfg st1 then markBudget st1
      else
        let st2 := runScorerStage cfg env st1
        if budgetBreached cfg st2 then markBudget st2
        else
          match score_check st2.score_threshold st2.max_rewrite_attempts
              (overallScore st2) st2.rewrite_attempts with
          | .toGapAnalysis => st2
          | .retryRewrite => rewriteScoreLoop cfg env fuel (bumpAttempts st2)

/-- Terminal bookkeeping: the run reaches ResultAggregation (§4.4). -/
def aggregate (st : PipelineState) : PipelineState :=
  enterStage st .ResultAggregation

/-- The guardrail check after the last stage (§4.4): nothing remains to
run, so a fresh breach is only recorded. -/
def finalCheck (cfg : Config) (st : PipelineState) : PipelineState :=
  if st.budget_exceeded then st
  else if budgetBreached cfg st then markBudget st
  else st

/-- Modelled from the spec (§4.4): the controller after a successful
RequirementExtraction — guardrail check, ChunkRetrieval, guardrail
check, the rewrite/score loop (with internal checks), guardrail check,
GapAnalysis, final guardrail check, then ResultAggregation.  A breach
anywhere short-circuits every remaining stage. -/
def pipelineRest (cfg : Config) (env : Env) (st1 : PipelineState) :
    PipelineState :=
  aggregate (finalCheck cfg
    (guardThen cfg
      (guardThen cfg
        (guardThen cfg st1 (runRetrieverStage cfg env))
        (fun s => rewriteScoreLoop cfg env (s.max_rewrite_attempts + 1) s))
      (runGapStage cfg env)))

/-- Modelled from the spec (§7): the fatal error kinds surfaced to the
caller. -/
inductive RunError
  | validationError (message : String)
  | quotaExceededError (reason : String)
  | agentExecutionError (stage : Stage) (message : String)
  deriving Repr, DecidableEq

/-- Modelled from the spec (§4.3, §4.4): one full Pipeline Controller
run.  The Requirement Extractor's input guard rejects a too-short job
description with ValidationError before any stage runs or any backend
call is made; an unrecoverable extractor validation failure aborts the
run; otherwise the run completes (possibly short-circuited by a budget
guardrail).  Returns the final state paired with the fatal error, if
any. -/
def runPipeline (cfg : Config) (env : Env) (st0 : PipelineState) :
    PipelineState × Option RunError :=
  if st0.jd_text.length < cfg.min_jd_length then
    (st0, some (.validationError "job description text below minimum length"))
  else
    match runExtractorStage cfg env st0 with
    | (st1, false) =>
        (st1, some (.agentExecutionError .RequirementExtraction
          "requirement extraction failed schema validation twice"))
    | (st1, true) => (pipelineRest cfg env st1, none)

/-- Modelled from the spec (§4.5): the initial `PipelineState`
constructed by the Orchestration Service: inputs set once, control
fields from configuration, everything else at its starting value. -/
def initState (cfg : Config) (tenant requester run_id jd : String)
    (chunks : List Chunk) : PipelineState :=
  { tenant_id := tenant, requester_id := requester, run_id := run_id
    jd_text := jd, resume_chunks := chunks
    score_threshold := cfg.score_threshold
    max_rewrite_attempts := cfg.max_rewrite_attempts }

/-- Modelled from the spec (§6): the quota collaborator's answer. -/
inductive QuotaDecision
  | allow
  | deny (reason : String)
  deriving Repr, DecidableEq

/-- Modelled from the spec (§4.5): the usage report handed to the
billing collaborator. -/
structure UsageReport where
  total_tokens : Nat
  stage_tokens : List (Stage × Nat)
  deriving Repr, DecidableEq

/-- Modelled from the spec (§4.5): the terminal-state projection
returned to the caller. -/
structure ResultObj where
  requirements : Option Requirements
  rewritten_bullets : Option (List String)
  scores : Option ScoreSet
  gap_report : Option GapReport
  rewrite_attempts : Nat
  errors : List ErrorRecord
  deriving Repr, DecidableEq

/-- Externally observable collaborator calls of the Orchestration
Service (§6): usage recording. -/
inductive ExtEvent
  | usageRecorded (tenant requester run_id : String) (total_tokens : Nat)
  deriving Repr, DecidableEq

/-- Map a terminal state to the caller's `Result` (§4.5). -/
def mkResult (st : PipelineState) : ResultObj :=
  { requirements := st.requirements
    rewritten_bullets := st.rewritten_bullets
    scores := st.scores
    gap_report := st.gap_report
    rewrite_attempts := st.rewrite_attempts
    errors := st.errors }

/-- Map a terminal state to the `UsageReport` (§4.5). -/
def mkUsage (st : PipelineState) : UsageReport :=
  ⟨st.total_tokens, st.stage_tokens⟩

/-- Modelled from the spec (§4.5, §6): the Orchestration Service entry
point.  On quota denial it fails with QuotaExceededError before any
state is constructed and without touching the backend.  Otherwise it
builds the initial state, runs the controller, and on completion
(success or degraded success) records usage exactly once.  Besides the
result it returns the usage-recording events and the number of Model
Invoker calls made. -/
def run_optimization (cfg : Config) (env : Env) (quota : QuotaDecision)
    (tenant requester run_id jd : String) (chunks : List Chunk) :
    Except RunError (ResultObj × UsageReport) × List ExtEvent × Nat :=
  match quota with
  | .deny reason => (.error (.quotaExceededError reason), [], 0)
  | .allow =>
      let st0 := initState cfg tenant requester run_id jd chunks
      match runPipeline cfg env st0 with
      | (stf, none) =>
          (.ok (mkResult stf, mkUsage stf),
            [.usageRecorded tenant requester run_id stf.total_tokens],
            stf.model_calls)
      | (stf, some e) => (.error e, [], stf.model_calls)

/-! ## Helper lemmas -/

/-- Bounds of the clamping function. -/
lemma clamp01_bounds (x : ℚ) : 0 ≤ clamp01 x ∧ clamp01 x ≤ 1 := by
  unfold clamp01
  constructor
  · exact le_max_left 0 (min 1 x)
  · exact max_le (by norm_num) (min_le_left 1 x)

/-- Every component of a clamped score set lies in [0, 1]. -/
lemma clampScores_bounds (r : ScoreSet) :
    (0 ≤ (clampScores r).overall ∧ (clampScores r).overall ≤ 1) ∧
      (0 ≤ (clampScores r).keyword_coverage ∧ (clampScores r).keyword_coverage ≤ 1) ∧
      (0 ≤ (clampScores r).skills_alignment ∧ (clampScores r).skills_alignment ≤ 1) ∧
      (0 ≤ (clampScores r).experience_relevance ∧ (clampScores r).experience_relevance ≤ 1) ∧
      (0 ≤ (clampScores r).formatting_quality ∧ (clampScores r).formatting_quality ≤ 1) :=
  ⟨clamp01_bounds _, clamp01_bounds _, clamp01_bounds _, clamp01_bounds _, clamp01_bounds _⟩

/-- `bumpAttempts` increments the counter and touches nothing else. -/
lemma bumpAttempts_fields (st : PipelineState) :
    (bumpAttempts st).rewrite_attempts = st.rewrite_attempts + 1 ∧
      (bumpAttempts st).max_rewrite_attempts = st.max_rewrite_attempts ∧
      (bumpAttempts st).score_threshold = st.score_threshold ∧
      (bumpAttempts st).budget_exceeded = st.budget_exceeded ∧
      (bumpAttempts st).total_tokens = st.total_tokens ∧
      (bumpAttempts st).elapsed_ms = st.elapsed_ms ∧
      (bumpAttempts st).model_calls = st.model_calls ∧
      (bumpAttempts st).errors = st.errors ∧
      (bumpAttempts st).stage_trace = st.stage_trace := by
  simp [bumpAttempts]

/-- The three possible outcomes of a guardrail checkpoint. -/
lemma guardThen_cases (cfg : Config) (st : PipelineState)
    (next : PipelineState → PipelineState) :
    guardThen cfg st next = st ∨ guardThen cfg st next = markBudget st ∨
      guardThen cfg st next = next st := by
  unfold guardThen
  split_ifs <;> simp

/-- `markBudget` only sets the flag and appends the budget error. -/
lemma markBudget_fields (st : PipelineState) :
    (markBudget st).rewrite_attempts = st.rewrite_attempts ∧
      (markBudget st).max_rewrite_attempts = st.max_rewrite_attempts ∧
      (markBudget st).score_threshold = st.score_threshold ∧
      (markBudget st).budget_exceeded = true ∧
      (markBudget st).stage_trace = st.stage_trace ∧
      (markBudget st).errors = st.errors ++
        [{ stage := st.current_stage, kind := "BudgetExceeded"
           message := "budget exceeded", continued := true }] := by
  simp [markBudget]

/-- `aggregate` only records the ResultAggregation stage. -/
lemma aggregate_fields (st : PipelineState) :
    (aggregate st).rewrite_attempts = st.rewrite_attempts ∧
      (aggregate st).max_rewrite_attempts = st.max_rewrite_attempts ∧
      (aggregate st).current_stage = Stage.ResultAggregation ∧
      (aggregate st).stage_trace = st.stage_trace ++ [Stage.ResultAggregation] ∧
      (aggregate st).errors = st.errors ∧
      (aggregate st).budget_exceeded = st.budget_exceeded := by
  simp [aggregate, enterStage]

/-- A guardrail never fires exactly when all three counters are within
their ceilings. -/
lemma budgetBreached_false_iff (cfg : Config) (st : PipelineState) :
    budgetBreached cfg st = false ↔
      (st.total_tokens ≤ cfg.max_total_tokens ∧
        st.elapsed_ms ≤ cfg.max_pipeline_latency_ms ∧
        st.model_calls ≤ cfg.max_model_calls) := by
  unfold budgetBreached
  simp [Nat.not_lt, and_assoc]

/-- Scoring decision: a passing score goes to GapAnalysis. -/
lemma score_check_pass (t : ℚ) (m : Nat) (s : ℚ) (a : Nat) (h : t ≤ s) :
    score_check t m s a = .toGapAnalysis := by
  unfold score_check
  rw [if_pos h]

/-- Scoring decision: a failing score with attempts left retries. -/
lemma score_check_retry (t : ℚ) (m : Nat) (s : ℚ) (a : Nat)
    (h : ¬ t ≤ s) (hm : a < m) : score_check t m s a = .retryRewrite := by
  unfold score_check
  rw [if_neg h, if_pos hm]

/-- Scoring decision: exhausted retries go to GapAnalysis. -/
lemma score_check_exhausted (t : ℚ) (m : Nat) (s : ℚ) (a : Nat)
    (h : ¬ t ≤ s) (hm : ¬ a < m) : score_check t m s a = .toGapAnalysis := by
  unfold score_check
  rw [if_neg h, if_neg hm]

/-- Inversion: the retry edge is taken only below threshold with
attempts remaining. -/
lemma score_check_retry_iff (t : ℚ) (m : Nat) (s : ℚ) (a : Nat) :
    score_check t m s a = .retryRewrite ↔ (¬ t ≤ s ∧ a < m) := by
  unfold score_check
  split_ifs with h1 h2 <;> simp_all

/-- One unfolding of the rewrite/score loop. -/
lemma rewriteScoreLoop_succ (cfg : Config) (env : Env) (fuel : Nat)
    (st : PipelineState) :
    rewriteScoreLoop cfg env (fuel + 1) st =
      (if budgetBreached cfg (runRewriterStage cfg env st) then
        markBudget (runRewriterStage cfg env st)
      else if budgetBreached cfg (runScorerStage cfg env (runRewriterStage cfg env st)) then
        markBudget (runScorerStage cfg env (runRewriterStage cfg env st))
      else
        match score_check
            (runScorerStage cfg env (runRewriterStage cfg env st)).score_threshold
            (runScorerStage cfg env (runRewriterStage cfg env st)).max_rewrite_attempts
            (overallScore (runScorerStage cfg env (runRewriterStage cfg env st)))
            (runScorerStage cfg env (runRewriterStage cfg env st)).rewrite_attempts with
        | .toGapAnalysis => runScorerStage cfg env (runRewriterStage cfg env st)
        | .retryRewrite =>
            rewriteScoreLoop cfg env fuel
              (bumpAttempts (runScorerStage cfg env (runRewriterStage cfg env st)))) := by
  rfl

/-- The Requirement Extractor stage touches only its own fields. -/
lemma runExtractorStage_pres (cfg : Config) (env : Env) (st : PipelineState) :
    ((runExtractorStage cfg env st).1).rewrite_attempts = st.rewrite_attempts ∧
      ((runExtractorStage cfg env st).1).max_rewrite_attempts = st.max_rewrite_attempts ∧
      ((runExtractorStage cfg env st).1).score_threshold = st.score_threshold ∧
      ((runExtractorStage cfg env st).1).budget_exceeded = st.budget_exceeded ∧
      ((runExtractorStage cfg env st).1).stage_trace =
        st.stage_trace ++ [Stage.RequirementExtraction] ∧
      ((runExtractorStage cfg env st).1).jd_text = st.jd_text := by
  rcases hr : runAgentTwice env.extract (extractRequest (enterStage st .RequirementExtraction))
    with ⟨res, lr, calls⟩
  cases res <;> simp only [runExtractorStage, hr] <;> simp [enterStage, applyCalls]

/-- The Chunk Retriever stage touches only its own fields. -/
lemma runRetrieverStage_pres (cfg : Config) (env : Env) (st : PipelineState) :
    (runRetrieverStage cfg env st).rewrite_attempts = st.rewrite_attempts ∧
      (runRetrieverStage cfg env st).max_rewrite_attempts = st.max_rewrite_attempts ∧
      (runRetrieverStage cfg env st).score_threshold = st.score_threshold ∧
      (runRetrieverStage cfg env st).budget_exceeded = st.budget_exceeded ∧
      (runRetrieverStage cfg env st).stage_trace =
        st.stage_trace ++ [Stage.ChunkRetrieval] := by
  rcases hr : runAgentTwice env.retrieve (retrieveRequest (enterStage st .ChunkRetrieval))
    with ⟨res, lr, calls⟩
  cases res <;> simp only [runRetrieverStage, hr] <;> simp [enterStage, applyCalls]

/-- The Content Rewriter stage touches only its own fields. -/
lemma runRewriterStage_pres (cfg : Config) (env : Env) (st : PipelineState) :
    (runRewriterStage cfg env st).rewrite_attempts = st.rewrite_attempts ∧
      (runRewriterStage cfg env st).max_rewrite_attempts = st.max_rewrite_attempts ∧
      (runRewriterStage cfg env st).score_threshold = st.score_threshold ∧
      (runRewriterStage cfg env st).budget_exceeded = st.budget_exceeded ∧
      (runRewriterStage cfg env st).stage_trace =
        st.stage_trace ++ [Stage.ContentRewriting] := by
  rcases hr : runAgentTwice env.rewrite (rewriteRequest (enterStage st .ContentRewriting))
    with ⟨res, lr, calls⟩
  cases res <;> simp only [runRewriterStage, hr] <;> simp [enterStage, applyCalls]

/-- The Compatibility Scorer stage touches only its own fields. -/
lemma runScorerStage_pres (cfg : Config) (env : Env) (st : PipelineState) :
    (runScorerStage cfg env st).rewrite_attempts = st.rewrite_attempts ∧
      (runScorerStage cfg env st).max_rewrite_attempts = st.max_rewrite_attempts ∧
      (runScorerStage cfg env st).score_threshold = st.score_threshold ∧
      (runScorerStage cfg env st).budget_exceeded = st.budget_exceeded ∧
      (runScorerStage cfg env st).stage_trace =
        st.stage_trace ++ [Stage.CompatibilityScoring] := by
  rcases hr : runAgentTwice env.score (scoreRequest (enterStage st .CompatibilityScoring))
    with ⟨res, lr, calls⟩
  cases res <;> simp only [runScorerStage, hr] <;> simp [enterStage, applyCalls]

/-- The Gap Analyzer stage touches only its own fields. -/
lemma runGapStage_pres (cfg : Config) (env : Env) (st : PipelineState) :
    (runGapStage cfg env st).rewrite_attempts = st.rewrite_attempts ∧
      (runGapStage cfg env st).max_rewrite_attempts = st.max_rewrite_attempts ∧
      (runGapStage cfg env st).score_threshold = st.score_threshold ∧
      (runGapStage cfg env st).budget_exceeded = st.budget_exceeded ∧
      (runGapStage cfg env st).stage_trace =
        st.stage_trace ++ [Stage.GapAnalysis] := by
  rcases hr : runAgentTwice env.gap (gapRequest (enterStage st .GapAnalysis))
    with ⟨res, lr, calls⟩
  cases res <;> simp only [runGapStage, hr] <;> simp [enterStage, applyCalls]

/-- Inversion of a fatal-error-free controller run: the length guard
passed, extraction validated, and the final state is the rest of the
pipeline applied to the post-extraction state. -/
lemma runPipeline_ok (cfg : Config) (env : Env) (st0 stf : PipelineState)
    (h : runPipeline cfg env st0 = (stf, none)) :
    ¬ st0.jd_text.length < cfg.min_jd_length ∧
      (runExtractorStage cfg env st0).2 = true ∧
      stf = pipelineRest cfg env (runExtractorStage cfg env st0).1 := by
  unfold runPipeline at h
  split_ifs at h with hjd
  · simp at h
  · rcases hx : runExtractorStage cfg env st0 with ⟨st1, b⟩
    rw [hx] at h
    cases b
    · simp at h
    · refine ⟨hjd, rfl, ?_⟩
      simp at h
      exact h.symm

/-- The attempt counter stays within the configured maximum. -/
def attemptsOk (st : PipelineState) : Prop :=
  st.rewrite_attempts ≤ st.max_rewrite_attempts

/-- The final checkpoint either leaves the state alone or marks the
breach. -/
lemma finalCheck_cases (cfg : Config) (st : PipelineState) :
    finalCheck cfg st = st ∨ finalCheck cfg st = markBudget st := by
  unfold finalCheck
  split_ifs <;> simp

/-- `markBudget` keeps the attempt counter within bounds. -/
lemma attemptsOk_markBudget (st : PipelineState) (h : attemptsOk st) :
    attemptsOk (markBudget st) := by
  obtain ⟨ha, hm, -, -, -, -⟩ := markBudget_fields st
  unfold attemptsOk at h ⊢
  rw [ha, hm]
  exact h

/-- A guardrail checkpoint keeps the attempt counter within bounds
whenever the guarded stage does. -/
lemma attemptsOk_guardThen (cfg : Config) (st : PipelineState)
    (next : PipelineState → PipelineState) (h : attemptsOk st)
    (hn : attemptsOk st → attemptsOk (next st)) :
    attemptsOk (guardThen cfg st next) := by
  rcases guardThen_cases cfg st next with hg | hg | hg <;> rw [hg]
  · exact h
  · exact attemptsOk_markBudget st h
  · exact hn h

/-- The rewrite/score loop keeps the attempt counter within the
configured maximum: retries are only taken while `attempts <
max_attempts`. -/
lemma rewriteScoreLoop_attemptsOk (cfg : Config) (env : Env) :
    ∀ fuel st, attemptsOk st → attemptsOk (rewriteScoreLoop cfg env fuel st)
  | 0, st, h => by simpa [rewriteScoreLoop] using h
  | fuel + 1, st, h => by
      simp only [rewriteScoreLoop]
      split_ifs with h1 h2
      · exact attemptsOk_markBudget _ (by
          obtain ⟨ha, hm, -, -, -⟩ := runRewriterStage_pres cfg env st
          unfold attemptsOk at h ⊢
          rw [ha, hm]
          exact h)
      · exact attemptsOk_markBudget _ (by
          obtain ⟨ha, hm, -, -, -⟩ :=
            runScorerStage_pres cfg env (runRewriterStage cfg env st)
          obtain ⟨ha2, hm2, -, -, -⟩ := runRewriterStage_pres cfg env st
          unfold attemptsOk at h ⊢
          rw [ha, hm, ha2, hm2]
          exact h)
      · rcases hsc : score_check
            (runScorerStage cfg env (runRewriterStage cfg env st)).score_threshold
            (runScorerStage cfg env (runRewriterStage cfg env st)).max_rewrite_attempts
            (overallScore (runScorerStage cfg env (runRewriterStage cfg env st)))
            (runScorerStage cfg env (runRewriterStage cfg env st)).rewrite_attempts
          with _ | _
        · simp only [hsc]
          obtain ⟨ha, hm, -, -, -⟩ :=
            runScorerStage_pres cfg env (runRewriterStage cfg env st)
          obtain ⟨ha2, hm2, -, -, -⟩ := runRewriterStage_pres cfg env st
          unfold attemptsOk at h ⊢
          rw [ha, hm, ha2, hm2]
          exact h
        · simp only [hsc]
          obtain ⟨-, hlt⟩ := (score_check_retry_iff _ _ _ _).mp hsc
          exact rewriteScoreLoop_attemptsOk cfg env fuel _ (by
            unfold attemptsOk
            simpa [bumpAttempts] using hlt)

/-- The rewrite/score loop never changes the configured maximum or the
threshold. -/
lemma rewriteScoreLoop_pres (cfg : Config) (env : Env) :
    ∀ fuel st,
      (rewriteScoreLoop cfg env fuel st).max_rewrite_attempts =
        st.max_rewrite_attempts ∧
      (rewriteScoreLoop cfg env fuel st).score_threshold = st.score_threshold
  | 0, st => by simp [rewriteScoreLoop]
  | fuel + 1, st => by
      simp only [rewriteScoreLoop]
      split_ifs with h1 h2
      · obtain ⟨-, hm, ht, -, -, -⟩ := markBudget_fields (runRewriterStage cfg env st)
        obtain ⟨-, hm2, ht2, -, -⟩ := runRewriterStage_pres cfg env st
        rw [hm, ht, hm2, ht2]
        exact ⟨rfl, rfl⟩
      · obtain ⟨-, hm, ht, -, -, -⟩ :=
          markBudget_fields (runScorerStage cfg env (runRewriterStage cfg env st))
        obtain ⟨-, hm2, ht2, -, -⟩ :=
          runScorerStage_pres cfg env (runRewriterStage cfg env st)
        obtain ⟨-, hm3, ht3, -, -⟩ := runRewriterStage_pres cfg env st
        rw [hm, ht, hm2, ht2, hm3, ht3]
        exact ⟨rfl, rfl⟩
      · rcases hsc : score_check
            (runScorerStage cfg env (runRewriterStage cfg env st)).score_threshold
            (runScorerStage cfg env (runRewriterStage cfg env st)).max_rewrite_attempts
            (overallScore (runScorerStage cfg env (runRewriterStage cfg env st)))
            (runScorerStage cfg env (runRewriterStage cfg env st)).rewrite_attempts
          with _ | _
        · simp only [hsc]
          obtain ⟨-, hm2, ht2, -, -⟩ :=
            runScorerStage_pres cfg env (runRewriterStage cfg env st)
          obtain ⟨-, hm3, ht3, -, -⟩ := runRewriterStage_pres cfg env st
          rw [hm2, ht2, hm3, ht3]
          exact ⟨rfl, rfl⟩
        · simp only [hsc]
          obtain ⟨hm4, ht4⟩ := rewriteScoreLoop_pres cfg env fuel
            (bumpAttempts (runScorerStage cfg env (runRewriterStage cfg env st)))
          rw [hm4, ht4]
          obtain ⟨-, hbm, hbt, -, -, -, -, -, -⟩ :=
            bumpAttempts_fields (runScorerStage cfg env (runRewriterStage cfg env st))
          obtain ⟨-, hm2, ht2, -, -⟩ :=
            runScorerStage_pres cfg env (runRewriterStage cfg env st)
          obtain ⟨-, hm3, ht3, -, -⟩ := runRewriterStage_pres cfg env st
          rw [hbm, hbt, hm2, ht2, hm3, ht3]
          exact ⟨rfl, rfl⟩

/-- The whole post-extraction pipeline keeps the attempt counter within
the configured maximum. -/
lemma pipelineRest_attemptsOk (cfg : Config) (env : Env) (st1 : PipelineState)
    (h : attemptsOk st1) : attemptsOk (pipelineRest cfg env st1) := by
  unfold pipelineRest
  have hA : attemptsOk (guardThen cfg st1 (runRetrieverStage cfg env)) := by
    refine attemptsOk_guardThen cfg st1 _ h (fun hh => ?_)
    obtain ⟨ha, hm, -, -, -⟩ := runRetrieverStage_pres cfg env st1
    unfold attemptsOk at hh ⊢
    rw [ha, hm]
    exact hh
  have hB : attemptsOk (guardThen cfg (guardThen cfg st1 (runRetrieverStage cfg env))
      (fun s => rewriteScoreLoop cfg env (s.max_rewrite_attempts + 1) s)) :=
    attemptsOk_guardThen cfg _ _ hA
      (fun hh => rewriteScoreLoop_attemptsOk cfg env _ _ hh)
  have hC : attemptsOk (guardThen cfg
      (guardThen cfg (guardThen cfg st1 (runRetrieverStage cfg env))
        (fun s => rewriteScoreLoop cfg env (s.max_rewrite_attempts + 1) s))
      (runGapStage cfg env)) := by
    refine attemptsOk_guardThen cfg _ _ hB (fun hh => ?_)
    obtain ⟨ha, hm, -, -, -⟩ := runGapStage_pres cfg env _
    unfold attemptsOk at hh ⊢
    rw [ha, hm]
    exact hh
  have hD : attemptsOk (finalCheck cfg (guardThen cfg
      (guardThen cfg (guardThen cfg st1 (runRetrieverStage cfg env))
        (fun s => rewriteScoreLoop cfg env (s.max_rewrite_attempts + 1) s))
      (runGapStage cfg env))) := by
    rcases finalCheck_cases cfg (guardThen cfg
      (guardThen cfg (guardThen cfg st1 (runRetrieverStage cfg env))
        (fun s => rewriteScoreLoop cfg env (s.max_rewrite_attempts + 1) s))
      (runGapStage cfg env)) with hg | hg <;> rw [hg]
    · exact hC
    · exact attemptsOk_markBudget _ hC
  obtain ⟨ha, hm, -, -, -, -⟩ := aggregate_fields (finalCheck cfg (guardThen cfg
      (guardThen cfg (guardThen cfg st1 (runRetrieverStage cfg env))
        (fun s => rewriteScoreLoop cfg env (s.max_rewrite_attempts + 1) s))
      (runGapStage cfg env)))
  unfold attemptsOk at hD ⊢
  rw [ha, hm]
  exact hD

/-- A stage backend that parses on the first attempt and reports zero
usage — the regime of the spec's deterministic stub scenarios (§8). -/
def firstTryZero {α : Type} (b : Request → RawOut α × Usage) : Prop :=
  ∀ q, (∃ v t, (b q).1 = RawOut.parsed v t) ∧ (b q).2 = ⟨0, 0⟩

/-- Under a first-try backend the agent template makes exactly one
call and validates it. -/
lemma runAgentTwice_firstTryZero {α : Type} (b : Request → RawOut α × Usage)
    (h : firstTryZero b) (q : Request) :
    ∃ v t, b q = (RawOut.parsed v t, ⟨0, 0⟩) ∧
      runAgentTwice b q = (some v, t, [(q, ⟨0, 0⟩)]) := by
  obtain ⟨⟨v, t, hv⟩, hu⟩ := h q
  have hbq : b q = (RawOut.parsed v t, ⟨0, 0⟩) := by
    rcases hb : b q with ⟨o, u⟩
    rw [hb] at hv hu
    simp only [] at hv hu
    rw [hv, hu]
  exact ⟨v, t, hbq, by simp [runAgentTwice, hbq]⟩

/-- Requirement extraction under a first-try zero-usage backend:
validates, adds one model call, no tokens, no time, no errors. -/
lemma runExtractorStage_z (cfg : Config) (env : Env) (st : PipelineState)
    (h : firstTryZero env.extract) :
    (runExtractorStage cfg env st).2 = true ∧
      ((runExtractorStage cfg env st).1).total_tokens = st.total_tokens ∧
      ((runExtractorStage cfg env st).1).elapsed_ms = st.elapsed_ms ∧
      ((runExtractorStage cfg env st).1).model_calls = st.model_calls + 1 ∧
      ((runExtractorStage cfg env st).1).errors = st.errors := by
  obtain ⟨v, t, -, hrun⟩ := runAgentTwice_firstTryZero env.extract h
    (extractRequest (enterStage st .RequirementExtraction))
  simp only [runExtractorStage, hrun]
  simp [applyCalls, enterStage]

/-- Chunk retrieval under a first-try zero-usage backend: validates,
counts no model call, no tokens, no time, no errors. -/
lemma runRetrieverStage_z (cfg : Config) (env : Env) (st : PipelineState)
    (h : firstTryZero env.retrieve) :
    (runRetrieverStage cfg env st).total_tokens = st.total_tokens ∧
      (runRetrieverStage cfg env st).elapsed_ms = st.elapsed_ms ∧
      (runRetrieverStage cfg env st).model_calls = st.model_calls ∧
      (runRetrieverStage cfg env st).errors = st.errors := by
  obtain ⟨v, t, -, hrun⟩ := runAgentTwice_firstTryZero env.retrieve h
    (retrieveRequest (enterStage st .ChunkRetrieval))
  simp only [runRetrieverStage, hrun]
  simp [applyCalls, enterStage]

/-- Content rewriting under a first-try zero-usage backend. -/
lemma runRewriterStage_z (cfg : Config) (env : Env) (st : PipelineState)
    (h : firstTryZero env.rewrite) :
    (runRewriterStage cfg env st).total_tokens = st.total_tokens ∧
      (runRewriterStage cfg env st).elapsed_ms = st.elapsed_ms ∧
      (runRewriterStage cfg env st).model_calls = st.model_calls + 1 ∧
      (runRewriterStage cfg env st).errors = st.errors := by
  obtain ⟨v, t, -, hrun⟩ := runAgentTwice_firstTryZero env.rewrite h
    (rewriteRequest (enterStage st .ContentRewriting))
  simp only [runRewriterStage, hrun]
  simp [applyCalls, enterStage]

/-- Compatibility scoring under a first-try zero-usage backend; the
stored scores are the clamped raw scores. -/
lemma runScorerStage_z (cfg : Config) (env : Env) (st : PipelineState)
    (h : firstTryZero env.score) :
    (runScorerStage cfg env st).total_tokens = st.total_tokens ∧
      (runScorerStage cfg env st).elapsed_ms = st.elapsed_ms ∧
      (runScorerStage cfg env st).model_calls = st.model_calls + 1 ∧
      (runScorerStage cfg env st).errors = st.errors ∧
      (∃ raw t u,
        env.score (scoreRequest (enterStage st .CompatibilityScoring)) =
          (RawOut.parsed raw t, u) ∧
        (runScorerStage cfg env st).scores = some (clampScores raw)) := by
  obtain ⟨v, t, hbq, hrun⟩ := runAgentTwice_firstTryZero env.score h
    (scoreRequest (enterStage st .CompatibilityScoring))
  refine ⟨?_, ?_, ?_, ?_, v, t, ⟨0, 0⟩, hbq, ?_⟩ <;>
    simp only [runScorerStage, hrun] <;> simp [applyCalls, enterStage]

/-- Gap analysis under a first-try zero-usage backend. -/
lemma runGapStage_z (cfg : Config) (env : Env) (st : PipelineState)
    (h : firstTryZero env.gap) :
    (runGapStage cfg env st).total_tokens = st.total_tokens ∧
      (runGapStage cfg env st).elapsed_ms = st.elapsed_ms ∧
      (runGapStage cfg env st).model_calls = st.model_calls + 1 ∧
      (runGapStage cfg env st).errors = st.errors := by
  obtain ⟨v, t, -, hrun⟩ := runAgentTwice_firstTryZero env.gap h
    (gapRequest (enterStage st .GapAnalysis))
  simp only [runGapStage, hrun]
  simp [applyCalls, enterStage]

/-- With a first-try scorer backend whose raw overall score always
clamps below the threshold, every stored overall score is below the
threshold. -/
lemma overallScore_lt_of_low (cfg : Config) (env : Env) (st : PipelineState)
    (hzs : firstTryZero env.score)
    (hlow : ∀ q v t u, env.score q = (RawOut.parsed v t, u) →
      clamp01 v.overall < cfg.score_threshold) :
    overallScore (runScorerStage cfg env st) < cfg.score_threshold := by
  obtain ⟨-, -, -, -, raw, t, u, hbq, hsc⟩ := runScorerStage_z cfg env st hzs
  rw [overallScore, hsc]
  exact hlow _ raw t u hbq

/-- Under first-try zero-usage rewrite and score backends whose raw
scores always clamp below the threshold, the loop runs all its rounds:
starting with `n` retries left it performs `n + 1` rewrite/score rounds,
ends with the attempt counter at the configured maximum, never trips a
guardrail, and accumulates exactly two model calls per round. -/
lemma rewriteScoreLoop_exhausts (cfg : Config) (env : Env)
    (hzr : firstTryZero env.rewrite) (hzs : firstTryZero env.score)
    (hlow : ∀ q v t u, env.score q = (RawOut.parsed v t, u) →
      clamp01 v.overall < cfg.score_threshold) :
    ∀ n st,
      st.score_threshold = cfg.score_threshold →
      st.rewrite_attempts + n = st.max_rewrite_attempts →
      st.total_tokens = 0 → st.elapsed_ms = 0 →
      st.model_calls + 2 * (n + 1) ≤ cfg.max_model_calls →
      (rewriteScoreLoop cfg env (n + 1) st).rewrite_attempts =
          st.max_rewrite_attempts ∧
        (rewriteScoreLoop cfg env (n + 1) st).max_rewrite_attempts =
          st.max_rewrite_attempts ∧
        (rewriteScoreLoop cfg env (n + 1) st).budget_exceeded =
          st.budget_exceeded ∧
        (rewriteScoreLoop cfg env (n + 1) st).total_tokens = 0 ∧
        (rewriteScoreLoop cfg env (n + 1) st).elapsed_ms = 0 ∧
        (rewriteScoreLoop cfg env (n + 1) st).model_calls =
          st.model_calls + 2 * (n + 1) ∧
        (rewriteScoreLoop cfg env (n + 1) st).errors = st.errors ∧
        (rewriteScoreLoop cfg env (n + 1) st).stage_trace =
          st.stage_trace ++
            (List.replicate (n + 1)
              [Stage.ContentRewriting, Stage.CompatibilityScoring]).flatten := by
  intro n
  induction n with
  | zero =>
      intro st h1 h2 h3 h4 h5
      obtain ⟨hrt, hre, hrc, hrerr⟩ := runRewriterStage_z cfg env st hzr
      obtain ⟨hra, hrm, hrth, hrb, hrtr⟩ := runRewriterStage_pres cfg env st
      have hb1 : budgetBreached cfg (runRewriterStage cfg env st) = false := by
        rw [budgetBreached_false_iff]
        refine ⟨?_, ?_, ?_⟩
        · rw [hrt, h3]; exact Nat.zero_le _
        · rw [hre, h4]; exact Nat.zero_le _
        · rw [hrc]; omega
      obtain ⟨hst, hse, hsc, hserr, -⟩ :=
        runScorerStage_z cfg env (runRewriterStage cfg env st) hzs
      obtain ⟨hsa, hsm, hsth, hsb, hstr⟩ :=
        runScorerStage_pres cfg env (runRewriterStage cfg env st)
      have hb2 : budgetBreached cfg
          (runScorerStage cfg env (runRewriterStage cfg env st)) = false := by
        rw [budgetBreached_false_iff]
        refine ⟨?_, ?_, ?_⟩
        · rw [hst, hrt, h3]; exact Nat.zero_le _
        · rw [hse, hre, h4]; exact Nat.zero_le _
        · rw [hsc, hrc]; omega
      have hover := overallScore_lt_of_low cfg env (runRewriterStage cfg env st) hzs hlow
      have hnle : ¬ (runScorerStage cfg env (runRewriterStage cfg env st)).score_threshold ≤
          overallScore (runScorerStage cfg env (runRewriterStage cfg env st)) := by
        rw [hsth, hrth, h1]
        exact not_le.mpr hover
      have hnlt : ¬ (runScorerStage cfg env (runRewriterStage cfg env st)).rewrite_attempts <
          (runScorerStage cfg env (runRewriterStage cfg env st)).max_rewrite_attempts := by
        rw [hsa, hra, hsm, hrm]
        omega
      simp only [rewriteScoreLoop, hb1, hb2, Bool.false_eq_true, if_false,
        score_check_exhausted _ _ _ _ hnle hnlt]
      refine ⟨?_, ?_, ?_, ?_, ?_, ?_, ?_, ?_⟩
      · rw [hsa, hra]; omega
      · rw [hsm, hrm]
      · rw [hsb, hrb]
      · rw [hst, hrt, h3]
      · rw [hse, hre, h4]
      · rw [hsc, hrc]
      · rw [hserr, hrerr]
      · rw [hstr, hrtr]; simp
  | succ k ih =>
      intro st h1 h2 h3 h4 h5
      obtain ⟨hrt, hre, hrc, hrerr⟩ := runRewriterStage_z cfg env st hzr
      obtain ⟨hra, hrm, hrth, hrb, hrtr⟩ := runRewriterStage_pres cfg env st
      have hb1 : budgetBreached cfg (runRewriterStage cfg env st) = false := by
        rw [budgetBreached_false_iff]
        refine ⟨?_, ?_, ?_⟩
        · rw [hrt, h3]; exact Nat.zero_le _
        · rw [hre, h4]; exact Nat.zero_le _
        · rw [hrc]; omega
      obtain ⟨hst, hse, hsc, hserr, -⟩ :=
        runScorerStage_z cfg env (runRewriterStage cfg env st) hzs
      obtain ⟨hsa, hsm, hsth, hsb, hstr⟩ :=
        runScorerStage_pres cfg env (runRewriterStage cfg env st)
      have hb2 : budgetBreached cfg
          (runScorerStage cfg env (runRewriterStage cfg env st)) = false := by
        rw [budgetBreached_false_iff]
        refine ⟨?_, ?_, ?_⟩
        · rw [hst, hrt, h3]; exact Nat.zero_le _
        · rw [hse, hre, h4]; exact Nat.zero_le _
        · rw [hsc, hrc]; omega
      have hover := overallScore_lt_of_low cfg env (runRewriterStage cfg env st) hzs hlow
      have hnle : ¬ (runScorerStage cfg env (runRewriterStage cfg env st)).score_threshold ≤
          overallScore (runScorerStage cfg env (runRewriterStage cfg env st)) := by
        rw [hsth, hrth, h1]
        exact not_le.mpr hover
      have hlt : (runScorerStage cfg env (runRewriterStage cfg env st)).rewrite_attempts <
          (runScorerStage cfg env (runRewriterStage cfg env st)).max_rewrite_attempts := by
        rw [hsa, hra, hsm, hrm]
        omega
      rw [rewriteScoreLoop_succ]
      simp only [hb1, hb2, Bool.false_eq_true, if_false,
        score_check_retry _ _ _ _ hnle hlt]
      obtain ⟨hba, hbm, hbth, hbb, hbt, hbe, hbc, hberr, hbtr⟩ :=
        bumpAttempts_fields (runScorerStage cfg env (runRewriterStage cfg env st))
      obtain ⟨c1, c2, c3, c4, c5, c6, c7, c8⟩ := ih
        (bumpAttempts (runScorerStage cfg env (runRewriterStage cfg env st)))
        (by rw [hbth, hsth, hrth, h1])
        (by rw [hba, hbm, hsa, hra, hsm, hrm]; omega)
        (by rw [hbt, hst, hrt, h3])
        (by rw [hbe, hse, hre, h4])
        (by rw [hbc, hsc, hrc]; omega)
      refine ⟨?_, ?_, ?_, ?_, ?_, ?_, ?_, ?_⟩
      · rw [c1, hbm, hsm, hrm]
      · rw [c2, hbm, hsm, hrm]
      · rw [c3, hbb, hsb, hrb]
      · exact c4
      · exact c5
      · rw [c6, hbc, hsc, hrc]; omega
      · rw [c7, hberr, hserr, hrerr]
      · rw [c8, hbtr, hstr, hrtr]
        simp [List.replicate_succ, List.append_assoc]

/-- A guardrail checkpoint lets control through when nothing is flagged
nor breached. -/
lemma guardThen_pass (cfg : Config) (st : PipelineState)
    (next : PipelineState → PipelineState)
    (hflag : st.budget_exceeded = false) (hb : budgetBreached cfg st = false) :
    guardThen cfg st next = next st := by
  unfold guardThen
  rw [if_neg (by simp [hflag]), if_neg (by simp [hb])]

/-- The final checkpoint is the identity when nothing is flagged nor
breached. -/
lemma finalCheck_pass (cfg : Config) (st : PipelineState)
    (hflag : st.budget_exceeded = false) (hb : budgetBreached cfg st = false) :
    finalCheck cfg st = st := by
  unfold finalCheck
  rw [if_neg (by simp [hflag]), if_neg (by simp [hb])]

/-- A guardrail checkpoint preserves the configured maximum whenever the
guarded stage does. -/
lemma guardThen_max_eq (cfg : Config) (st : PipelineState)
    (next : PipelineState → PipelineState)
    (hn : (next st).max_rewrite_attempts = st.max_rewrite_attempts) :
    (guardThen cfg st next).max_rewrite_attempts = st.max_rewrite_attempts := by
  rcases guardThen_cases cfg st next with hg | hg | hg <;> rw [hg]
  · exact (markBudget_fields st).2.1
  · exact hn

/-- The post-extraction pipeline never changes the configured maximum. -/
lemma pipelineRest_max_eq (cfg : Config) (env : Env) (st1 : PipelineState) :
    (pipelineRest cfg env st1).max_rewrite_attempts = st1.max_rewrite_attempts := by
  unfold pipelineRest
  have hA : (guardThen cfg st1 (runRetrieverStage cfg env)).max_rewrite_attempts =
      st1.max_rewrite_attempts :=
    guardThen_max_eq cfg st1 _ (runRetrieverStage_pres cfg env st1).2.1
  have hB : (guardThen cfg (guardThen cfg st1 (runRetrieverStage cfg env))
      (fun s => rewriteScoreLoop cfg env (s.max_rewrite_attempts + 1) s)).max_rewrite_attempts =
      st1.max_rewrite_attempts := by
    rw [guardThen_max_eq cfg (guardThen cfg st1 (runRetrieverStage cfg env))
      (fun s => rewriteScoreLoop cfg env (s.max_rewrite_attempts + 1) s)
      ((rewriteScoreLoop_pres cfg env _ _).1)]
    exact hA
  have hC : (guardThen cfg
      (guardThen cfg (guardThen cfg st1 (runRetrieverStage cfg env))
        (fun s => rewriteScoreLoop cfg env (s.max_rewrite_attempts + 1) s))
      (runGapStage cfg env)).max_rewrite_attempts = st1.max_rewrite_attempts := by
    rw [guardThen_max_eq cfg _ _ (runGapStage_pres cfg env _).2.1]
    exact hB
  rw [(aggregate_fields _).2.1]
  rcases finalCheck_cases cfg (guardThen cfg
      (guardThen cfg (guardThen cfg st1 (runRetrieverStage cfg env))
        (fun s => rewriteScoreLoop cfg env (s.max_rewrite_attempts + 1) s))
      (runGapStage cfg env)) with hg | hg <;> rw [hg]
  · exact hC
  · rw [(markBudget_fields _).2.1]
    exact hC

/-- Every state the post-extraction pipeline returns is at
ResultAggregation. -/
lemma pipelineRest_current_stage (cfg : Config) (env : Env) (st1 : PipelineState) :
    (pipelineRest cfg env st1).current_stage = Stage.ResultAggregation := by
  unfold pipelineRest
  exact (aggregate_fields _).2.2.1

/-- The fields of the freshly constructed initial state. -/
lemma initState_fields (cfg : Config) (tenant requester run_id jd : String)
    (chunks : List Chunk) :
    (initState cfg tenant requester run_id jd chunks).jd_text = jd ∧
      (initState cfg tenant requester run_id jd chunks).rewrite_attempts = 0 ∧
      (initState cfg tenant requester run_id jd chunks).max_rewrite_attempts =
        cfg.max_rewrite_attempts ∧
      (initState cfg tenant requester run_id jd chunks).score_threshold =
        cfg.score_threshold ∧
      (initState cfg tenant requester run_id jd chunks).total_tokens = 0 ∧
      (initState cfg tenant requester run_id jd chunks).elapsed_ms = 0 ∧
      (initState cfg tenant requester run_id jd chunks).model_calls = 0 ∧
      (initState cfg tenant requester run_id jd chunks).budget_exceeded = false ∧
      (initState cfg tenant requester run_id jd chunks).stage_trace = [] ∧
      (initState cfg tenant requester run_id jd chunks).errors = [] := by
  simp [initState]

/-- Counting the rewrite rounds in the loop's trace contribution. -/
lemma count_flatten_replicate_pair (n : Nat) :
    ((List.replicate n [Stage.ContentRewriting, Stage.CompatibilityScoring]).flatten).count
      Stage.ContentRewriting = n := by
  induction n with
  | zero => simp
  | succ k ih =>
      rw [List.replicate_succ]
      simp [List.count_append, ih, List.count_cons]

/-- Under first-try zero-usage backends whose scores stay below the
threshold, with enough model-call headroom, the post-extraction pipeline
performs every retry round and completes normally at ResultAggregation. -/
lemma pipelineRest_exhausts (cfg : Config) (env : Env) (st1 : PipelineState)
    (hzv : firstTryZero env.retrieve) (hzr : firstTryZero env.rewrite)
    (hzs : firstTryZero env.score) (hzg : firstTryZero env.gap)
    (hlow : ∀ q v t u, env.score q = (RawOut.parsed v t, u) →
      clamp01 v.overall < cfg.score_threshold)
    (h1 : st1.score_threshold = cfg.score_threshold)
    (h2 : st1.rewrite_attempts = 0)
    (hmax : st1.max_rewrite_attempts = cfg.max_rewrite_attempts)
    (h3 : st1.total_tokens = 0) (h4 : st1.elapsed_ms = 0)
    (h5 : st1.model_calls + 2 * cfg.max_rewrite_attempts + 3 ≤ cfg.max_model_calls)
    (hflag : st1.budget_exceeded = false) :
    (pipelineRest cfg env st1).rewrite_attempts = cfg.max_rewrite_attempts ∧
      (pipelineRest cfg env st1).current_stage = Stage.ResultAggregation ∧
      (pipelineRest cfg env st1).errors = st1.errors ∧
      (pipelineRest cfg env st1).stage_trace =
        st1.stage_trace ++ [Stage.ChunkRetrieval] ++
          (List.replicate (cfg.max_rewrite_attempts + 1)
            [Stage.ContentRewriting, Stage.CompatibilityScoring]).flatten ++
          [Stage.GapAnalysis, Stage.ResultAggregation] := by
  obtain ⟨hvt, hve, hvc, hverr⟩ := runRetrieverStage_z cfg env st1 hzv
  obtain ⟨hva, hvm, hvth, hvb, hvtr⟩ := runRetrieverStage_pres cfg env st1
  have hgb1 : budgetBreached cfg st1 = false := by
    rw [budgetBreached_false_iff]
    exact ⟨by rw [h3]; exact Nat.zero_le _, by rw [h4]; exact Nat.zero_le _, by omega⟩
  have hgb2 : budgetBreached cfg (runRetrieverStage cfg env st1) = false := by
    rw [budgetBreached_false_iff]
    exact ⟨by rw [hvt, h3]; exact Nat.zero_le _,
      by rw [hve, h4]; exact Nat.zero_le _, by rw [hvc]; omega⟩
  obtain ⟨c1, c2, c3, c4, c5, c6, c7, c8⟩ := rewriteScoreLoop_exhausts cfg env hzr hzs hlow
    cfg.max_rewrite_attempts (runRetrieverStage cfg env st1)
    (by rw [hvth, h1])
    (by rw [hva, h2, hvm, hmax]; omega)
    (by rw [hvt, h3]) (by rw [hve, h4])
    (by rw [hvc]; omega)
  rw [hvm, hmax] at c1 c2
  have hLflag : (rewriteScoreLoop cfg env (cfg.max_rewrite_attempts + 1)
      (runRetrieverStage cfg env st1)).budget_exceeded = false := by
    rw [c3, hvb, hflag]
  have hLb : budgetBreached cfg (rewriteScoreLoop cfg env (cfg.max_rewrite_attempts + 1)
      (runRetrieverStage cfg env st1)) = false := by
    rw [budgetBreached_false_iff]
    exact ⟨by rw [c4]; exact Nat.zero_le _, by rw [c5]; exact Nat.zero_le _,
      by rw [c6, hvc]; omega⟩
  obtain ⟨hgt, hge, hgc, hgerr⟩ := runGapStage_z cfg env
    (rewriteScoreLoop cfg env (cfg.max_rewrite_attempts + 1)
      (runRetrieverStage cfg env st1)) hzg
  obtain ⟨hga, hgm, hgth, hgb, hgtr⟩ := runGapStage_pres cfg env
    (rewriteScoreLoop cfg env (cfg.max_rewrite_attempts + 1)
      (runRetrieverStage cfg env st1))
  have hGflag : (runGapStage cfg env (rewriteScoreLoop cfg env
      (cfg.max_rewrite_attempts + 1) (runRetrieverStage cfg env st1))).budget_exceeded =
      false := by
    rw [hgb, hLflag]
  have hGb : budgetBreached cfg (runGapStage cfg env (rewriteScoreLoop cfg env
      (cfg.max_rewrite_attempts + 1) (runRetrieverStage cfg env st1))) = false := by
    rw [budgetBreached_false_iff]
    exact ⟨by rw [hgt, c4]; exact Nat.zero_le _, by rw [hge, c5]; exact Nat.zero_le _,
      by rw [hgc, c6, hvc]; omega⟩
  have hrest : pipelineRest cfg env st1 = aggregate (runGapStage cfg env
      (rewriteScoreLoop cfg env (cfg.max_rewrite_attempts + 1)
        (runRetrieverStage cfg env st1))) := by
    unfold pipelineRest
    rw [guardThen_pass cfg st1 _ hflag hgb1,
      guardThen_pass cfg (runRetrieverStage cfg env st1) _ (by rw [hvb, hflag]) hgb2]
    rw [hvm, hmax]
    rw [guardThen_pass cfg _ _ hLflag hLb,
      finalCheck_pass cfg _ hGflag hGb]
  rw [hrest]
  obtain ⟨a1, -, a3, a4, a5, -⟩ := aggregate_fields (runGapStage cfg env
    (rewriteScoreLoop cfg env (cfg.max_rewrite_attempts + 1)
      (runRetrieverStage cfg env st1)))
  refine ⟨?_, ?_, ?_, ?_⟩
  · rw [a1, hga, c1]
  · exact a3
  · rw [a5, hgerr, c7, hverr]
  · rw [a4, hgtr, c8, hvtr]
    simp [List.append_assoc]

/-- Once the short-circuit flag is set, a checkpoint runs nothing. -/
lemma guardThen_flagged (cfg : Config) (st : PipelineState)
    (next : PipelineState → PipelineState) (h : st.budget_exceeded = true) :
    guardThen cfg st next = st := by
  unfold guardThen
  rw [if_pos h]

/-- A fresh breach at a checkpoint marks the state and skips the stage. -/
lemma guardThen_breach (cfg : Config) (st : PipelineState)
    (next : PipelineState → PipelineState) (hf : st.budget_exceeded = false)
    (hb : budgetBreached cfg st = true) :
    guardThen cfg st next = markBudget st := by
  unfold guardThen
  rw [if_neg (by simp [hf]), if_pos hb]

/-- The final checkpoint is the identity on a flagged state. -/
lemma finalCheck_flagged (cfg : Config) (st : PipelineState)
    (h : st.budget_exceeded = true) : finalCheck cfg st = st := by
  unfold finalCheck
  rw [if_pos h]

/-! ## Claim theorems -/

/-- C10: the display-formatting utilities `formatScore`, `formatDate`
and `formatFileSize` each return the empty string for every input —
their bodies are TODO stubs — despite doc comments promising a formatted
score, a human-readable date and a human-readable file size. -/
theorem formatters_return_empty_string (s : ℚ) (d : String) (b : ℚ) :
    formatScore s = "" ∧ formatDate d = "" ∧ formatFileSize b = "" :=
  ⟨rfl, rfl, rfl⟩

/-- `handleSubmitReg` submits iff `validate` recorded no error. -/
lemma handleSubmitReg_isSome (f : RegForm) :
    (handleSubmitReg f).isSome ↔ regErrorsClean (validateReg f) = true := by
  unfold handleSubmitReg
  split_ifs with h <;> simp [h]

/-- `validate` is clean iff every client-side check passes. -/
lemma regErrorsClean_iff (f : RegForm) :
    regErrorsClean (validateReg f) = true ↔
      (f.email.trim ≠ "" ∧ emailPatternTest f.email = true ∧
        f.password ≠ "" ∧ 8 ≤ f.password.length ∧
        f.password = f.confirmPassword ∧ 2 ≤ f.tenantName.trim.length) := by
  unfold regErrorsClean validateReg
  simp only [Bool.and_eq_true, Option.isNone_iff_eq_none]
  split_ifs <;> simp_all

/-- C9: the registration page invokes `register` only when every
client-side check passes — the email is (trim-)non-empty and matches the
page's email pattern, the password is non-empty and at least 8
characters, the confirmation equals the password, and the trimmed
organization name is at least 2 characters; the tenant name passed to
`register` is the trimmed value; and when a check fails no registration
request is made and an error message is recorded for the failing
field. -/
theorem register_submit_guard (f : RegForm) :
    ((handleSubmitReg f).isSome ↔
      (f.email.trim ≠ "" ∧ emailPatternTest f.email = true ∧
        f.password ≠ "" ∧ 8 ≤ f.password.length ∧
        f.password = f.confirmPassword ∧ 2 ≤ f.tenantName.trim.length)) ∧
    (∀ c, handleSubmitReg f = some c → c = (f.email, f.password, f.tenantName.trim)) ∧
    (emailPatternTest f.email = false →
      (validateReg f).email.isSome = true ∧ handleSubmitReg f = none) ∧
    (f.password.length < 8 →
      (validateReg f).password.isSome = true ∧ handleSubmitReg f = none) ∧
    (¬ f.password = f.confirmPassword →
      (validateReg f).confirmPassword.isSome = true ∧ handleSubmitReg f = none) ∧
    (f.tenantName.trim.length < 2 →
      (validateReg f).tenantName.isSome = true ∧ handleSubmitReg f = none) := by
  have hiff := (handleSubmitReg_isSome f).trans (regErrorsClean_iff f)
  have hnone : ∀ (_ : ¬ (f.email.trim ≠ "" ∧ emailPatternTest f.email = true ∧
      f.password ≠ "" ∧ 8 ≤ f.password.length ∧
      f.password = f.confirmPassword ∧ 2 ≤ f.tenantName.trim.length)),
      handleSubmitReg f = none := by
    intro h
    exact Option.not_isSome_iff_eq_none.mp (fun hs => h (hiff.mp hs))
  refine ⟨hiff, ?_, ?_, ?_, ?_, ?_⟩
  · intro c hc
    unfold handleSubmitReg at hc
    split_ifs at hc with h
    exact (Option.some_inj.mp hc).symm
  · intro h
    refine ⟨?_, hnone ?_⟩
    · unfold validateReg
      simp only
      split_ifs <;> simp_all
    · rintro ⟨-, h2, -⟩
      simp [h] at h2
  · intro h
    refine ⟨?_, hnone ?_⟩
    · unfold validateReg
      simp only
      split_ifs <;> simp_all
    · rintro ⟨-, -, -, h4, -⟩
      omega
  · intro h
    refine ⟨?_, hnone ?_⟩
    · unfold validateReg
      simp only
      split_ifs <;> simp_all
    · rintro ⟨-, -, -, -, h5, -⟩
      exact h h5
  · intro h
    refine ⟨?_, hnone ?_⟩
    · unfold validateReg
      simp only
      split_ifs <;> simp_all
    · rintro ⟨-, -, -, -, -, h6⟩
      omega

/-- C3: every score value the Compatibility Scorer stores into the
pipeline state — the overall score and each of the four breakdown
scores — lies in [0.0, 1.0], even when the underlying generation
produced out-of-range numbers; on a validated parse the stored set is
exactly the clamped raw set, and the schema-failure fallback is also in
range. -/
theorem scorer_clamps_scores (cfg : Config) (env : Env) (st : PipelineState) :
    (∀ s, (runScorerStage cfg env st).scores = some s →
      (0 ≤ s.overall ∧ s.overall ≤ 1) ∧
        (0 ≤ s.keyword_coverage ∧ s.keyword_coverage ≤ 1) ∧
        (0 ≤ s.skills_alignment ∧ s.skills_alignment ≤ 1) ∧
        (0 ≤ s.experience_relevance ∧ s.experience_relevance ≤ 1) ∧
        (0 ≤ s.formatting_quality ∧ s.formatting_quality ≤ 1)) ∧
    (∀ raw lastText calls,
      runAgentTwice env.score (scoreRequest (enterStage st .CompatibilityScoring)) =
          (some raw, lastText, calls) →
      (runScorerStage cfg env st).scores = some (clampScores raw)) := by
  obtain ⟨res, lr, calls, h⟩ :
      ∃ res lr calls,
        runAgentTwice env.score (scoreRequest (enterStage st .CompatibilityScoring)) =
          (res, lr, calls) := ⟨_, _, _, rfl⟩
  constructor
  · intro s hs
    cases res with
    | some raw =>
        simp only [runScorerStage, h] at hs
        obtain rfl : clampScores raw = s := by simpa using hs
        exact clampScores_bounds raw
    | none =>
        simp only [runScorerStage, h] at hs
        obtain rfl : fallbackScores = s := by simpa using hs
        refine ⟨?_, ?_, ?_, ?_, ?_⟩ <;> constructor <;> norm_num [fallbackScores]
  · intro raw lastText calls2 h2
    rw [h] at h2
    injection h2 with h21 h22
    subst h21
    simp [runScorerStage, h]

/-- C6: for every input whose job-description text is shorter than the
configured minimum length, the Requirement Extractor input guard fails
the run with ValidationError immediately: the returned state is the
untouched initial state — no stage in the trace, zero model calls, no
backend request logged — and this holds for every backend environment,
so no model call is consumed. -/
theorem short_jd_validation_error (cfg : Config) (env : Env)
    (tenant requester run_id jd : String) (chunks : List Chunk)
    (h : jd.length < cfg.min_jd_length) :
    runPipeline cfg env (initState cfg tenant requester run_id jd chunks) =
      (initState cfg tenant requester run_id jd chunks,
        some (.validationError "job description text below minimum length")) ∧
    (initState cfg tenant requester run_id jd chunks).model_calls = 0 ∧
    (initState cfg tenant requester run_id jd chunks).stage_trace = [] ∧
    (initState cfg tenant requester run_id jd chunks).invoke_log = [] := by
  refine ⟨?_, rfl, rfl, rfl⟩
  unfold runPipeline
  rw [if_pos]
  exact h

/-- C5: on quota denial `run_optimization` fails with QuotaExceededError,
records no usage and reports zero Model Invoker calls — the outcome is a
constant, independent of the backend environment and the inputs, so no
pipeline state is built and no pipeline work happens; conversely, on any
run that completes without a fatal error (success or degraded success)
usage is recorded exactly once, with the run's token total. -/
theorem quota_denial_and_usage_recording (cfg : Config) (env : Env)
    (tenant requester run_id jd : String) (chunks : List Chunk) :
    (∀ reason,
      run_optimization cfg env (.deny reason) tenant requester run_id jd chunks =
        (.error (.quotaExceededError reason), [], 0)) ∧
    (∀ stf,
      runPipeline cfg env (initState cfg tenant requester run_id jd chunks) = (stf, none) →
      run_optimization cfg env .allow tenant requester run_id jd chunks =
        (.ok (mkResult stf, mkUsage stf),
          [.usageRecorded tenant requester run_id stf.total_tokens],
          stf.model_calls)) := by
  constructor
  · intro reason
    rfl
  · intro stf h
    simp only [run_optimization, h]

/-- The final response of an exchange is either the first response or
the retried request's response. -/
lemma clientExchange_final (cs : ClientState) (env : FetchEnv) :
    (clientExchange cs env).1 = env.firstResponse ∨
      (clientExchange cs env).1 = env.retryResponse := by
  unfold clientExchange
  split_ifs with h
  · rcases hr : executeRefresh cs env with ⟨o, evr⟩
    cases o <;> simp [hr]
  · simp

/-- C8: for every `ApiClient` request whose first response is a 401
while a refresh token is available: the client refreshes and, when the
refresh endpoint responds ok, re-sends the original request exactly once
with the Authorization header set to the new Bearer token, reporting the
new tokens via `onTokenRefreshed`; when the refresh fails or throws,
`onAuthFailure` is invoked and the request throws `ApiError` with the
final (first) response's status 401.  Non-ok responses never resolve:
they always throw `ApiError` whose status is the final response's and
whose message is the body's `detail`, else its `message`, else the
default `Request failed: <status>`. -/
theorem apiClient_request_behavior (cs : ClientState) (env : FetchEnv) :
    (∀ rt tk, cs.refreshToken = some rt → rt ≠ "" →
      env.firstResponse.status = 401 →
      env.refreshNet = .responds true tk →
      clientRequest cs env =
        ((if respOk env.retryResponse then .success env.retryResponse
            else .apiError env.retryResponse.status (errMessage env.retryResponse)),
          [.sentRequest (authHeaderFor cs.accessToken), .sentRefresh rt,
            .tokenRefreshed tk, .sentRequest (some ("Bearer " ++ tk.access_token))])) ∧
    (∀ rt, cs.refreshToken = some rt → rt ≠ "" →
      env.firstResponse.status = 401 →
      (env.refreshNet = .throws ∨ ∃ tk, env.refreshNet = .responds false tk) →
      clientRequest cs env =
        (.apiError 401 (errMessage env.firstResponse),
          [.sentRequest (authHeaderFor cs.accessToken), .sentRefresh rt, .authFailure])) ∧
    (∀ resp ev, clientRequest cs env = (.success resp, ev) → respOk resp = true) ∧
    (∀ s m ev, clientRequest cs env = (.apiError s m, ev) →
      ∃ r, (r = env.firstResponse ∨ r = env.retryResponse) ∧ r.status = s ∧
        respOk r = false ∧
        m = r.body_detail.getD (r.body_message.getD ("Request failed: " ++ toString s))) := by
  refine ⟨?_, ?_, ?_, ?_⟩
  · intro rt tk hrt hne h401 hnet
    have htr : truthy cs.refreshToken = true := by simp [truthy, hrt, hne]
    have hex : executeRefresh cs env =
        (some tk, [.sentRefresh rt, .tokenRefreshed tk]) := by
      simp [executeRefresh, truthy, hnet, hrt, hne]
    simp only [clientRequest, clientExchange, h401, htr, hex]
    split_ifs <;> simp_all
  · intro rt hrt hne h401 hnet
    have htr : truthy cs.refreshToken = true := by simp [truthy, hrt, hne]
    have hex : executeRefresh cs env = (none, [.sentRefresh rt, .authFailure]) := by
      rcases hnet with hnet | ⟨tk, hnet⟩ <;> simp [executeRefresh, truthy, hnet, hrt, hne]
    have hok : respOk env.firstResponse = false := by
      simp [respOk, h401]
    simp only [clientRequest, clientExchange, h401, htr, hex]
    simp [hok, h401]
  · intro resp ev h
    simp only [clientRequest] at h
    split_ifs at h with hok
    · rw [Prod.ext_iff] at h
      obtain ⟨h1, -⟩ := h
      obtain rfl : (clientExchange cs env).1 = resp := by simpa using h1
      exact hok
    · simp at h
  · intro s m ev h
    simp only [clientRequest] at h
    split_ifs at h with hok
    · simp at h
    · rw [Prod.ext_iff] at h
      obtain ⟨h1, -⟩ := h
      have h2 : (clientExchange cs env).1.status = s ∧
          errMessage (clientExchange cs env).1 = m := by
        injection h1 with hs hm
        exact ⟨hs, hm⟩
      refine ⟨(clientExchange cs env).1, clientExchange_final cs env, h2.1, ?_, ?_⟩
      · simpa using hok
      · rw [← h2.2, ← h2.1]
        rfl

/-- C1: the Pipeline Controller's scoring decision point: a score
meeting the threshold proceeds to GapAnalysis; a failing score with
attempts remaining takes the retry edge, which increments the attempt
counter and returns to ContentRewriting, the rewrite request carrying
the current score breakdown; exhausted retries proceed to GapAnalysis as
a non-error outcome; and a run whose first score meets the threshold
reaches GapAnalysis with `rewrite_attempts = 0`. -/
theorem scoring_decision_point (cfg : Config) (env : Env)
    (tenant requester run_id jd : String) (chunks : List Chunk) :
    (∀ (t : ℚ) (m : Nat) (s : ℚ) (a : Nat),
      (t ≤ s → score_check t m s a = .toGapAnalysis) ∧
        (s < t → a < m → score_check t m s a = .retryRewrite) ∧
        (s < t → ¬ a < m → score_check t m s a = .toGapAnalysis)) ∧
    (∀ st : PipelineState, (rewriteRequest st).score_context = st.scores) ∧
    (∀ fuel st,
      budgetBreached cfg (runRewriterStage cfg env st) = false →
      budgetBreached cfg (runScorerStage cfg env (runRewriterStage cfg env st)) = false →
      score_check
        (runScorerStage cfg env (runRewriterStage cfg env st)).score_threshold
        (runScorerStage cfg env (runRewriterStage cfg env st)).max_rewrite_attempts
        (overallScore (runScorerStage cfg env (runRewriterStage cfg env st)))
        (runScorerStage cfg env (runRewriterStage cfg env st)).rewrite_attempts =
          .retryRewrite →
      rewriteScoreLoop cfg env (fuel + 1) st =
        rewriteScoreLoop cfg env fuel
          (bumpAttempts (runScorerStage cfg env (runRewriterStage cfg env st)))) ∧
    (∀ st1 st2 st3 st4 st5 : PipelineState,
      ¬ jd.length < cfg.min_jd_length →
      runExtractorStage cfg env (initState cfg tenant requester run_id jd chunks) =
        (st1, true) →
      budgetBreached cfg st1 = false →
      runRetrieverStage cfg env st1 = st2 →
      budgetBreached cfg st2 = false →
      runRewriterStage cfg env st2 = st3 →
      budgetBreached cfg st3 = false →
      runScorerStage cfg env st3 = st4 →
      budgetBreached cfg st4 = false →
      st4.score_threshold ≤ overallScore st4 →
      runGapStage cfg env st4 = st5 →
      budgetBreached cfg st5 = false →
      runPipeline cfg env (initState cfg tenant requester run_id jd chunks) =
        (aggregate st5, none) ∧
        (aggregate st5).rewrite_attempts = 0 ∧
        Stage.GapAnalysis ∈ (aggregate st5).stage_trace) := by
  refine ⟨?_, ?_, ?_, ?_⟩
  · intro t m s a
    exact ⟨score_check_pass t m s a,
      fun h1 h2 => score_check_retry t m s a (not_le.mpr h1) h2,
      fun h1 h2 => score_check_exhausted t m s a (not_le.mpr h1) h2⟩
  · intro st
    simp [rewriteRequest]
  · intro fuel st hb1 hb2 hsc
    rw [rewriteScoreLoop_succ, if_neg (by simp [hb1]), if_neg (by simp [hb2])]
    simp only [hsc]
  · intro st1 st2 st3 st4 st5 hjd hx hb1 hret hb2 hrw hb3 hsc4 hb4 hscore hgap hb5
    obtain ⟨hjd0, hatt0, hmax0, hth0, htok0, hel0, hcall0, hflag0, htr0, herr0⟩ :=
      initState_fields cfg tenant requester run_id jd chunks
    have hx1 : (runExtractorStage cfg env
        (initState cfg tenant requester run_id jd chunks)).1 = st1 := by rw [hx]
    obtain ⟨p1, p2, p3, p4, p5, p6⟩ :=
      runExtractorStage_pres cfg env (initState cfg tenant requester run_id jd chunks)
    rw [hx1] at p1 p2 p3 p4 p5 p6
    have hf1 : st1.budget_exceeded = false := by rw [p4, hflag0]
    have hA1 : st1.rewrite_attempts = 0 := by rw [p1, hatt0]
    obtain ⟨q1, q2, q3, q4, q5⟩ := runRetrieverStage_pres cfg env st1
    rw [hret] at q1 q2 q3 q4 q5
    have hf2 : st2.budget_exceeded = false := by rw [q4, hf1]
    have hA2 : st2.rewrite_attempts = 0 := by rw [q1, hA1]
    obtain ⟨r1, r2, r3, r4, r5⟩ := runRewriterStage_pres cfg env st2
    rw [hrw] at r1 r2 r3 r4 r5
    have hf3 : st3.budget_exceeded = false := by rw [r4, hf2]
    have hA3 : st3.rewrite_attempts = 0 := by rw [r1, hA2]
    obtain ⟨s1, s2, s3, s4, s5⟩ := runScorerStage_pres cfg env st3
    rw [hsc4] at s1 s2 s3 s4 s5
    have hf4 : st4.budget_exceeded = false := by rw [s4, hf3]
    have hA4 : st4.rewrite_attempts = 0 := by rw [s1, hA3]
    obtain ⟨g1, g2, g3, g4, g5⟩ := runGapStage_pres cfg env st4
    rw [hgap] at g1 g2 g3 g4 g5
    have hf5 : st5.budget_exceeded = false := by rw [g4, hf4]
    have hA5 : st5.rewrite_attempts = 0 := by rw [g1, hA4]
    have hrun : runPipeline cfg env (initState cfg tenant requester run_id jd chunks) =
        (pipelineRest cfg env st1, none) := by
      unfold runPipeline
      rw [if_neg (by rw [hjd0]; exact hjd), hx]
    have hloop : rewriteScoreLoop cfg env (st2.max_rewrite_attempts + 1) st2 = st4 := by
      rw [rewriteScoreLoop_succ, hrw, hsc4, if_neg (by simp [hb3]),
        if_neg (by simp [hb4]), score_check_pass _ _ _ _ hscore]
    have hrest : pipelineRest cfg env st1 = aggregate st5 := by
      unfold pipelineRest
      rw [guardThen_pass cfg st1 _ hf1 hb1, hret,
        guardThen_pass cfg st2 _ hf2 hb2]
      show aggregate (finalCheck cfg (guardThen cfg
        (rewriteScoreLoop cfg env (st2.max_rewrite_attempts + 1) st2)
        (runGapStage cfg env))) = aggregate st5
      rw [hloop, guardThen_pass cfg st4 _ hf4 hb4, hgap,
        finalCheck_pass cfg st5 hf5 hb5]
    refine ⟨by rw [hrun, hrest], ?_, ?_⟩
    · rw [(aggregate_fields st5).1, hA5]
    · rw [(aggregate_fields st5).2.2.2.1, g5]
      simp

/-- C2: the rewrite-attempt counter never exceeds the configured
maximum — in particular `rewrite_attempts ≤ max_rewrite_attempts` holds
at ResultAggregation for every fatal-error-free run; and when every
rewrite attempt scores below the threshold (deterministic zero-usage
stubs, enough model-call headroom), exactly `max_rewrite_attempts`
retries are performed — the rewriter runs `max_rewrite_attempts + 1`
times — before proceeding to GapAnalysis, and the run still succeeds. -/
theorem rewrite_attempts_bounded (cfg : Config) (env : Env)
    (tenant requester run_id jd : String) (chunks : List Chunk) :
    (∀ stf,
      runPipeline cfg env (initState cfg tenant requester run_id jd chunks) =
        (stf, none) →
      stf.rewrite_attempts ≤ cfg.max_rewrite_attempts ∧
        stf.current_stage = Stage.ResultAggregation) ∧
    (firstTryZero env.extract → firstTryZero env.retrieve →
      firstTryZero env.rewrite → firstTryZero env.score → firstTryZero env.gap →
      (∀ q v t u, env.score q = (RawOut.parsed v t, u) →
        clamp01 v.overall < cfg.score_threshold) →
      2 * cfg.max_rewrite_attempts + 4 ≤ cfg.max_model_calls →
      ¬ jd.length < cfg.min_jd_length →
      ∀ stf er,
        runPipeline cfg env (initState cfg tenant requester run_id jd chunks) =
          (stf, er) →
        er = none ∧
          stf.rewrite_attempts = cfg.max_rewrite_attempts ∧
          stf.stage_trace.count Stage.ContentRewriting =
            cfg.max_rewrite_attempts + 1 ∧
          Stage.GapAnalysis ∈ stf.stage_trace) := by
  obtain ⟨hjd0, hatt0, hmax0, hth0, htok0, hel0, hcall0, hflag0, htr0, herr0⟩ :=
    initState_fields cfg tenant requester run_id jd chunks
  constructor
  · intro stf h
    obtain ⟨-, -, hrest⟩ := runPipeline_ok cfg env _ stf h
    subst hrest
    obtain ⟨p1, p2, -, -, -, -⟩ :=
      runExtractorStage_pres cfg env (initState cfg tenant requester run_id jd chunks)
    constructor
    · have hao := pipelineRest_attemptsOk cfg env
        (runExtractorStage cfg env (initState cfg tenant requester run_id jd chunks)).1
        (by unfold attemptsOk; rw [p1, p2, hatt0]; exact Nat.zero_le _)
      unfold attemptsOk at hao
      rw [pipelineRest_max_eq, p2, hmax0] at hao
      exact hao
    · exact pipelineRest_current_stage cfg env _
  · intro hze hzv hzr hzs hzg hlow hcalls hjd stf er hrun
    obtain ⟨hx2, hxt, hxe, hxc, hxerr⟩ := runExtractorStage_z cfg env
      (initState cfg tenant requester run_id jd chunks) hze
    obtain ⟨p1, p2, p3, p4, p5, -⟩ :=
      runExtractorStage_pres cfg env (initState cfg tenant requester run_id jd chunks)
    rcases hx : runExtractorStage cfg env (initState cfg tenant requester run_id jd chunks)
      with ⟨st1, flg⟩
    rw [hx] at hx2 hxt hxe hxc hxerr p1 p2 p3 p4 p5
    have hflg : flg = true := hx2
    subst hflg
    have hrun2 : runPipeline cfg env (initState cfg tenant requester run_id jd chunks) =
        (pipelineRest cfg env st1, none) := by
      unfold runPipeline
      rw [if_neg (by rw [hjd0]; exact hjd), hx]
    rw [hrun2] at hrun
    injection hrun with hstf her
    refine ⟨her.symm, ?_⟩
    obtain ⟨e1, -, e3, e4⟩ := pipelineRest_exhausts cfg env st1 hzv hzr hzs hzg hlow
      (by rw [p3, hth0]) (by rw [p1, hatt0]) (by rw [p2, hmax0])
      (by rw [hxt, htok0]) (by rw [hxe, hel0])
      (by rw [hxc, hcall0]; omega) (by rw [p4, hflag0])
    rw [hstf] at e1 e3 e4
    refine ⟨e1, ?_, ?_⟩
    · rw [e4, p5, htr0]
      simp [List.count_append, count_flatten_replicate_pair]
    · rw [e4]
      simp

/-- C4: a budget-guardrail breach after a completed stage short-circuits
the run: once the short-circuit flag is set no checkpoint executes its
stage; a fresh breach is recorded as a non-fatal budget-exceeded entry;
and concretely, a breach detected right after ChunkRetrieval (stage 2)
sends the run straight to ResultAggregation — ContentRewriting,
CompatibilityScoring and GapAnalysis are never invoked — while the run
still completes with no fatal error and a budget-exceeded entry in its
error list. -/
theorem budget_breach_short_circuits (cfg : Config) (env : Env)
    (tenant requester run_id jd : String) (chunks : List Chunk) :
    (∀ st next, st.budget_exceeded = true → guardThen cfg st next = st) ∧
    (∀ st next, st.budget_exceeded = false → budgetBreached cfg st = true →
      guardThen cfg st next = markBudget st ∧
        (markBudget st).errors = st.errors ++
          [{ stage := st.current_stage, kind := "BudgetExceeded"
             message := "budget exceeded", continued := true }] ∧
        (markBudget st).budget_exceeded = true) ∧
    (∀ st1 st2,
      ¬ jd.length < cfg.min_jd_length →
      runExtractorStage cfg env (initState cfg tenant requester run_id jd chunks) =
        (st1, true) →
      budgetBreached cfg st1 = false →
      runRetrieverStage cfg env st1 = st2 →
      budgetBreached cfg st2 = true →
      runPipeline cfg env (initState cfg tenant requester run_id jd chunks) =
        (aggregate (markBudget st2), none) ∧
        (aggregate (markBudget st2)).stage_trace =
          [Stage.RequirementExtraction, Stage.ChunkRetrieval,
            Stage.ResultAggregation] ∧
        Stage.ContentRewriting ∉ (aggregate (markBudget st2)).stage_trace ∧
        Stage.CompatibilityScoring ∉ (aggregate (markBudget st2)).stage_trace ∧
        Stage.GapAnalysis ∉ (aggregate (markBudget st2)).stage_trace ∧
        (∃ e ∈ (aggregate (markBudget st2)).errors,
          e.kind = "BudgetExceeded" ∧ e.continued = true)) := by
  refine ⟨fun st next h => guardThen_flagged cfg st next h, ?_, ?_⟩
  · intro st next hf hb
    exact ⟨guardThen_breach cfg st next hf hb,
      (markBudget_fields st).2.2.2.2.2, (markBudget_fields st).2.2.2.1⟩
  · intro st1 st2 hjd hx hb1 hret hb2
    obtain ⟨hjd0, hatt0, hmax0, hth0, htok0, hel0, hcall0, hflag0, htr0, herr0⟩ :=
      initState_fields cfg tenant requester run_id jd chunks
    have hx1 : (runExtractorStage cfg env
        (initState cfg tenant requester run_id jd chunks)).1 = st1 := by rw [hx]
    obtain ⟨-, -, -, p4, p5, -⟩ :=
      runExtractorStage_pres cfg env (initState cfg tenant requester run_id jd chunks)
    rw [hx1] at p4 p5
    have hf1 : st1.budget_exceeded = false := by rw [p4, hflag0]
    obtain ⟨-, -, -, q4, q5⟩ := runRetrieverStage_pres cfg env st1
    rw [hret] at q4 q5
    have hf2 : st2.budget_exceeded = false := by rw [q4, hf1]
    have hrun : runPipeline cfg env (initState cfg tenant requester run_id jd chunks) =
        (pipelineRest cfg env st1, none) := by
      unfold runPipeline
      rw [if_neg (by rw [hjd0]; exact hjd), hx]
    have hmflag : (markBudget st2).budget_exceeded = true := (markBudget_fields st2).2.2.2.1
    have hrest : pipelineRest cfg env st1 = aggregate (markBudget st2) := by
      unfold pipelineRest
      rw [guardThen_pass cfg st1 _ hf1 hb1, hret,
        guardThen_breach cfg st2 _ hf2 hb2,
        guardThen_flagged cfg (markBudget st2) _ hmflag,
        finalCheck_flagged cfg (markBudget st2) hmflag]
    have htrace : (aggregate (markBudget st2)).stage_trace =
        [Stage.RequirementExtraction, Stage.ChunkRetrieval, Stage.ResultAggregation] := by
      rw [(aggregate_fields (markBudget st2)).2.2.2.1,
        (markBudget_fields st2).2.2.2.2.1, q5, p5, htr0]
      simp
    refine ⟨by rw [hrun, hrest], htrace, ?_, ?_, ?_, ?_⟩
    · rw [htrace]; simp
    · rw [htrace]; simp
    · rw [htrace]; simp
    · refine ⟨⟨st2.current_stage, "BudgetExceeded", "budget exceeded", true⟩, ?_, rfl, rfl⟩
      rw [(aggregate_fields (markBudget st2)).2.2.2.2.1,
        (markBudget_fields st2).2.2.2.2.2]
      simp

/-- C7: when `validate` rejects a stage's raw output the controller
re-invokes that same stage exactly once more with the stricter follow-up
instruction appended (and accepts a valid second output); on a second
rejection the stage yields its documented fallback and records a
non-fatal error entry — empty chunk list for the Chunk Retriever, the
raw text wrapped as a single-element bullet list for the Content
Rewriter, all scores 0.5 for the Compatibility Scorer, the empty gap
report for the Gap Analyzer — except the Requirement Extractor, for
which a second rejection aborts the run. -/
theorem validation_retry_and_fallbacks (cfg : Config) (env : Env) :
    (∀ (α : Type) (b : Request → RawOut α × Usage) (q : Request) t1 u1,
      b q = (.malformed t1, u1) →
      (∀ v t2 u2, b (stricter q) = (.parsed v t2, u2) →
        runAgentTwice b q = (some v, t2, [(q, u1), (stricter q, u2)])) ∧
      (∀ t2 u2, b (stricter q) = (.malformed t2, u2) →
        runAgentTwice b q = (none, t2, [(q, u1), (stricter q, u2)]))) ∧
    (∀ st t1 t2 u1 u2,
      env.retrieve (retrieveRequest (enterStage st .ChunkRetrieval)) =
        (.malformed t1, u1) →
      env.retrieve (stricter (retrieveRequest (enterStage st .ChunkRetrieval))) =
        (.malformed t2, u2) →
      (runRetrieverStage cfg env st).retrieved_chunks = some [] ∧
        (runRetrieverStage cfg env st).errors =
          st.errors ++ [schemaErrorRecord .ChunkRetrieval] ∧
        (runRetrieverStage cfg env st).invoke_log = st.invoke_log ++
          [retrieveRequest (enterStage st .ChunkRetrieval),
            stricter (retrieveRequest (enterStage st .ChunkRetrieval))]) ∧
    (∀ st t1 t2 u1 u2,
      env.rewrite (rewriteRequest (enterStage st .ContentRewriting)) =
        (.malformed t1, u1) →
      env.rewrite (stricter (rewriteRequest (enterStage st .ContentRewriting))) =
        (.malformed t2, u2) →
      (runRewriterStage cfg env st).rewritten_bullets = some [t2] ∧
        (runRewriterStage cfg env st).errors =
          st.errors ++ [schemaErrorRecord .ContentRewriting] ∧
        (runRewriterStage cfg env st).invoke_log = st.invoke_log ++
          [rewriteRequest (enterStage st .ContentRewriting),
            stricter (rewriteRequest (enterStage st .ContentRewriting))]) ∧
    (∀ st t1 t2 u1 u2,
      env.score (scoreRequest (enterStage st .CompatibilityScoring)) =
        (.malformed t1, u1) →
      env.score (stricter (scoreRequest (enterStage st .CompatibilityScoring))) =
        (.malformed t2, u2) →
      (runScorerStage cfg env st).scores = some fallbackScores ∧
        (runScorerStage cfg env st).errors =
          st.errors ++ [schemaErrorRecord .CompatibilityScoring] ∧
        (runScorerStage cfg env st).invoke_log = st.invoke_log ++
          [scoreRequest (enterStage st .CompatibilityScoring),
            stricter (scoreRequest (enterStage st .CompatibilityScoring))]) ∧
    (∀ st t1 t2 u1 u2,
      env.gap (gapRequest (enterStage st .GapAnalysis)) = (.malformed t1, u1) →
      env.gap (stricter (gapRequest (enterStage st .GapAnalysis))) =
        (.malformed t2, u2) →
      (runGapStage cfg env st).gap_report = some emptyGapReport ∧
        (runGapStage cfg env st).errors =
          st.errors ++ [schemaErrorRecord .GapAnalysis] ∧
        (runGapStage cfg env st).invoke_log = st.invoke_log ++
          [gapRequest (enterStage st .GapAnalysis),
            stricter (gapRequest (enterStage st .GapAnalysis))]) ∧
    (∀ tenant requester run_id jd chunks t1 t2 u1 u2,
      ¬ jd.length < cfg.min_jd_length →
      env.extract (extractRequest (enterStage
        (initState cfg tenant requester run_id jd chunks) .RequirementExtraction)) =
        (.malformed t1, u1) →
      env.extract (stricter (extractRequest (enterStage
        (initState cfg tenant requester run_id jd chunks) .RequirementExtraction))) =
        (.malformed t2, u2) →
      ∃ stA, runPipeline cfg env (initState cfg tenant requester run_id jd chunks) =
        (stA, some (.agentExecutionError .RequirementExtraction
          "requirement extraction failed schema validation twice"))) := by
  have hagent : ∀ (α : Type) (b : Request → RawOut α × Usage) (q : Request) t1 u1 t2 u2,
      b q = (.malformed t1, u1) → b (stricter q) = (.malformed t2, u2) →
      runAgentTwice b q = (none, t2, [(q, u1), (stricter q, u2)]) := by
    intro α b q t1 u1 t2 u2 h1 h2
    simp [runAgentTwice, h1, h2]
  refine ⟨?_, ?_, ?_, ?_, ?_, ?_⟩
  · intro α b q t1 u1 h1
    constructor
    · intro v t2 u2 h2
      simp [runAgentTwice, h1, h2]
    · intro t2 u2 h2
      exact hagent α b q t1 u1 t2 u2 h1 h2
  · intro st t1 t2 u1 u2 h1 h2
    have h := hagent _ env.retrieve _ t1 u1 t2 u2 h1 h2
    refine ⟨?_, ?_, ?_⟩ <;> simp only [runRetrieverStage, h] <;>
      simp [applyCalls, enterStage]
  · intro st t1 t2 u1 u2 h1 h2
    have h := hagent _ env.rewrite _ t1 u1 t2 u2 h1 h2
    refine ⟨?_, ?_, ?_⟩ <;> simp only [runRewriterStage, h] <;>
      simp [applyCalls, enterStage]
  · intro st t1 t2 u1 u2 h1 h2
    have h := hagent _ env.score _ t1 u1 t2 u2 h1 h2
    refine ⟨?_, ?_, ?_⟩ <;> simp only [runScorerStage, h] <;>
      simp [applyCalls, enterStage]
  · intro st t1 t2 u1 u2 h1 h2
    have h := hagent _ env.gap _ t1 u1 t2 u2 h1 h2
    refine ⟨?_, ?_, ?_⟩ <;> simp only [runGapStage, h] <;>
      simp [applyCalls, enterStage]
  · intro tenant requester run_id jd chunks t1 t2 u1 u2 hjd h1 h2
    have h := hagent _ env.extract _ t1 u1 t2 u2 h1 h2
    rcases hx : runExtractorStage cfg env
        (initState cfg tenant requester run_id jd chunks) with ⟨stA, flg⟩
    have hflg : flg = false := by
      simp only [runExtractorStage, h] at hx
      exact (Prod.mk.injEq .. ▸ hx).2.symm ▸ rfl
    subst hflg
    refine ⟨stA, ?_⟩
    unfold runPipeline
    rw [if_neg (by simpa [initState] using hjd), hx]

/-! ## Concrete fixtures for witnesses -/

/-- A job description comfortably above the minimum length. -/
def jdW : String := String.mk (List.replicate 60 'x')

/-- The default configuration. -/
def cfg0 : Config := {}

/-- Witness configuration: an integer threshold (so the kernel can
evaluate the comparisons) and otherwise the defaults. -/
def cfgH : Config := { score_threshold := 1, min_jd_length := 1 }

/-- Witness configuration for the full-exhaustion scenario: integer
threshold and a raised model-call ceiling. -/
def cfgW : Config := { score_threshold := 1, max_model_calls := 100, min_jd_length := 1 }

/-- Happy-path stub backends: every stage parses first try; the scorer
reports a perfect overall score. -/
def envHappy : Env where
  extract := fun _ =>
    (.parsed ⟨["python"], ["teamwork"], ["ship"], ["bs"], [("python", 1)]⟩ "e", ⟨100, 10⟩)
  retrieve := fun _ => (.parsed [⟨"experience", "built x", 1⟩] "r", ⟨0, 5⟩)
  rewrite := fun _ => (.parsed ["did a", "did b"] "w", ⟨100, 10⟩)
  score := fun _ => (.parsed ⟨1, 1, 1, 1, 1⟩ "s", ⟨100, 10⟩)
  gap := fun _ => (.parsed ⟨[("k8s", .high)], ["learn k8s"], ["ops"]⟩ "g", ⟨100, 10⟩)

/-- Zero-usage stubs whose scorer always reports overall 0. -/
def envLowZ : Env where
  extract := fun _ => (.parsed ⟨["python"], [], [], [], []⟩ "e", ⟨0, 0⟩)
  retrieve := fun _ => (.parsed [⟨"experience", "built x", 1⟩] "r", ⟨0, 0⟩)
  rewrite := fun _ => (.parsed ["did a"] "w", ⟨0, 0⟩)
  score := fun _ => (.parsed ⟨0, 0, 0, 0, 0⟩ "s", ⟨0, 0⟩)
  gap := fun _ => (.parsed ⟨[], [], []⟩ "g", ⟨0, 0⟩)

/-- Stubs whose scorer produces out-of-range raw numbers. -/
def envWild : Env :=
  { envHappy with
    score := fun _ => (.parsed ⟨2, -1, 3, 1, 0⟩ "s", ⟨100, 10⟩) }

/-- Stubs whose retrieval step reports a token count far over the
ceiling, breaching the budget right after stage 2. -/
def envBudget : Env :=
  { envHappy with
    retrieve := fun _ => (.parsed [⟨"experience", "built x", 1⟩] "r", ⟨8000, 5⟩) }

/-- Stubs that produce malformed output on every attempt. -/
def envBad : Env where
  extract := fun _ => (.malformed "bad", ⟨1, 2⟩)
  retrieve := fun _ => (.malformed "bad", ⟨1, 2⟩)
  rewrite := fun _ => (.malformed "bad", ⟨1, 2⟩)
  score := fun _ => (.malformed "bad", ⟨1, 2⟩)
  gap := fun _ => (.malformed "bad", ⟨1, 2⟩)

/-- A refresh-token response fixture. -/
def tkW : TokenResponse := ⟨"newacc", "newref", "bearer", 3600⟩

/-- Client state holding both tokens. -/
def csW : ClientState := ⟨some "acc", some "rt"⟩

/-- A 401 first response, a successful refresh, a 200 retry. -/
def fenvW : FetchEnv :=
  { firstResponse := ⟨401, none, none⟩
    refreshNet := .responds true tkW
    retryResponse := ⟨200, none, none⟩ }

/-- A registration form whose password fails the length check. -/
def regFormBad : RegForm :=
  ⟨"you@company.com", "short", "short", "Acme"⟩

/-! ## Witnesses -/

set_option maxHeartbeats 2000000 in
set_option maxHeartbeats 1000000 in
/-- Witness for C1 at the happy-path stubs: the first score meets the
threshold, so the run reaches GapAnalysis directly with zero rewrite
attempts. -/
theorem scoring_decision_point_witness :
    runPipeline cfgH envHappy (initState cfgH "t" "u" "r" "jobdesc" []) =
      (aggregate (runGapStage cfgH envHappy (runScorerStage cfgH envHappy
        (runRewriterStage cfgH envHappy (runRetrieverStage cfgH envHappy
          (runExtractorStage cfgH envHappy
            (initState cfgH "t" "u" "r" "jobdesc" [])).1)))), none) ∧
      (aggregate (runGapStage cfgH envHappy (runScorerStage cfgH envHappy
        (runRewriterStage cfgH envHappy (runRetrieverStage cfgH envHappy
          (runExtractorStage cfgH envHappy
            (initState cfgH "t" "u" "r" "jobdesc" [])).1))))).rewrite_attempts = 0 ∧
      Stage.GapAnalysis ∈
        (aggregate (runGapStage cfgH envHappy (runScorerStage cfgH envHappy
          (runRewriterStage cfgH envHappy (runRetrieverStage cfgH envHappy
            (runExtractorStage cfgH envHappy
              (initState cfgH "t" "u" "r" "jobdesc" [])).1))))).stage_trace :=
  (scoring_decision_point cfgH envHappy "t" "u" "r" "jobdesc" []).2.2.2
    (runExtractorStage cfgH envHappy (initState cfgH "t" "u" "r" "jobdesc" [])).1
    (runRetrieverStage cfgH envHappy
      (runExtractorStage cfgH envHappy (initState cfgH "t" "u" "r" "jobdesc" [])).1)
    (runRewriterStage cfgH envHappy (runRetrieverStage cfgH envHappy
      (runExtractorStage cfgH envHappy (initState cfgH "t" "u" "r" "jobdesc" [])).1))
    (runScorerStage cfgH envHappy (runRewriterStage cfgH envHappy
      (runRetrieverStage cfgH envHappy
        (runExtractorStage cfgH envHappy (initState cfgH "t" "u" "r" "jobdesc" [])).1)))
    (runGapStage cfgH envHappy (runScorerStage cfgH envHappy
      (runRewriterStage cfgH envHappy (runRetrieverStage cfgH envHappy
        (runExtractorStage cfgH envHappy (initState cfgH "t" "u" "r" "jobdesc" [])).1))))
    (by decide) (by decide) (by decide) (by decide) (by decide) (by decide)
    (by decide) (by decide) (by decide) (by decide) (by decide) (by decide)

/-- Default budget ceilings with a tiny minimum job-description length,
for the budget-breach scenario. -/
def cfgB : Config := { score_threshold := 1, min_jd_length := 1 }

set_option maxHeartbeats 1000000 in
/-- Witness for C2: with every score 0 (below threshold 1) and zero
usage, the run retries exactly `max_rewrite_attempts = 2` times, runs
the rewriter 3 times, and still reaches GapAnalysis. -/
theorem rewrite_attempts_bounded_witness :
    (runPipeline cfgW envLowZ (initState cfgW "t" "u" "r" "jobdesc" [])).2 = none ∧
      ((runPipeline cfgW envLowZ
        (initState cfgW "t" "u" "r" "jobdesc" [])).1).rewrite_attempts =
        cfgW.max_rewrite_attempts ∧
      ((runPipeline cfgW envLowZ
        (initState cfgW "t" "u" "r" "jobdesc" [])).1).stage_trace.count
        Stage.ContentRewriting = cfgW.max_rewrite_attempts + 1 ∧
      Stage.GapAnalysis ∈ ((runPipeline cfgW envLowZ
        (initState cfgW "t" "u" "r" "jobdesc" [])).1).stage_trace :=
  (rewrite_attempts_bounded cfgW envLowZ "t" "u" "r" "jobdesc" []).2
    (fun _ => ⟨⟨_, _, rfl⟩, rfl⟩) (fun _ => ⟨⟨_, _, rfl⟩, rfl⟩)
    (fun _ => ⟨⟨_, _, rfl⟩, rfl⟩) (fun _ => ⟨⟨_, _, rfl⟩, rfl⟩)
    (fun _ => ⟨⟨_, _, rfl⟩, rfl⟩)
    (by
      intro q v t u h
      injection h with h1 h2
      injection h1 with hv ht
      subst hv
      decide)
    (by decide) (by decide)
    (runPipeline cfgW envLowZ (initState cfgW "t" "u" "r" "jobdesc" [])).1
    (runPipeline cfgW envLowZ (initState cfgW "t" "u" "r" "jobdesc" [])).2
    rfl

/-- Witness for C3: raw scores (2, −1, 3, 1, 0) are stored clamped, and
the stored set lies in [0, 1] componentwise. -/
theorem scorer_clamps_scores_witness :
    (0 ≤ (⟨1, 0, 1, 1, 0⟩ : ScoreSet).overall ∧
        (⟨1, 0, 1, 1, 0⟩ : ScoreSet).overall ≤ 1) ∧
      (0 ≤ (⟨1, 0, 1, 1, 0⟩ : ScoreSet).keyword_coverage ∧
        (⟨1, 0, 1, 1, 0⟩ : ScoreSet).keyword_coverage ≤ 1) ∧
      (0 ≤ (⟨1, 0, 1, 1, 0⟩ : ScoreSet).skills_alignment ∧
        (⟨1, 0, 1, 1, 0⟩ : ScoreSet).skills_alignment ≤ 1) ∧
      (0 ≤ (⟨1, 0, 1, 1, 0⟩ : ScoreSet).experience_relevance ∧
        (⟨1, 0, 1, 1, 0⟩ : ScoreSet).experience_relevance ≤ 1) ∧
      (0 ≤ (⟨1, 0, 1, 1, 0⟩ : ScoreSet).formatting_quality ∧
        (⟨1, 0, 1, 1, 0⟩ : ScoreSet).formatting_quality ≤ 1) :=
  (scorer_clamps_scores cfgH envWild
    (initState cfgH "t" "u" "r" "jobdesc" [])).1 ⟨1, 0, 1, 1, 0⟩ (by decide)

set_option maxHeartbeats 1000000 in
/-- Witness for C4: retrieval reporting 8000 tokens breaches the default
7000-token ceiling right after stage 2; the run short-circuits to
ResultAggregation. -/
theorem budget_breach_short_circuits_witness :
    runPipeline cfgB envBudget (initState cfgB "t" "u" "r" "jobdesc" []) =
      (aggregate (markBudget (runRetrieverStage cfgB envBudget
        (runExtractorStage cfgB envBudget
          (initState cfgB "t" "u" "r" "jobdesc" [])).1)), none) ∧
      (aggregate (markBudget (runRetrieverStage cfgB envBudget
        (runExtractorStage cfgB envBudget
          (initState cfgB "t" "u" "r" "jobdesc" [])).1))).stage_trace =
        [Stage.RequirementExtraction, Stage.ChunkRetrieval,
          Stage.ResultAggregation] ∧
      Stage.ContentRewriting ∉ (aggregate (markBudget (runRetrieverStage cfgB envBudget
        (runExtractorStage cfgB envBudget
          (initState cfgB "t" "u" "r" "jobdesc" [])).1))).stage_trace ∧
      Stage.CompatibilityScoring ∉ (aggregate (markBudget (runRetrieverStage cfgB envBudget
        (runExtractorStage cfgB envBudget
          (initState cfgB "t" "u" "r" "jobdesc" [])).1))).stage_trace ∧
      Stage.GapAnalysis ∉ (aggregate (markBudget (runRetrieverStage cfgB envBudget
        (runExtractorStage cfgB envBudget
          (initState cfgB "t" "u" "r" "jobdesc" [])).1))).stage_trace ∧
      (∃ e ∈ (aggregate (markBudget (runRetrieverStage cfgB envBudget
        (runExtractorStage cfgB envBudget
          (initState cfgB "t" "u" "r" "jobdesc" [])).1))).errors,
        e.kind = "BudgetExceeded" ∧ e.continued = true) :=
  (budget_breach_short_circuits cfgB envBudget "t" "u" "r" "jobdesc" []).2.2
    (runExtractorStage cfgB envBudget (initState cfgB "t" "u" "r" "jobdesc" [])).1
    (runRetrieverStage cfgB envBudget
      (runExtractorStage cfgB envBudget (initState cfgB "t" "u" "r" "jobdesc" [])).1)
    (by decide) (by decide) (by decide) rfl (by decide)

set_option maxHeartbeats 1000000 in
/-- Witness for C5: a denied quota yields exactly the constant failure
triple; an allowed run records usage exactly once. -/
theorem quota_denial_and_usage_recording_witness :
    run_optimization cfgH envHappy (.deny "no-credit") "t" "u" "r" "jobdesc" [] =
      (.error (.quotaExceededError "no-credit"), [], 0) ∧
      run_optimization cfgH envHappy .allow "t" "u" "r" "jobdesc" [] =
        (.ok (mkResult (runPipeline cfgH envHappy
            (initState cfgH "t" "u" "r" "jobdesc" [])).1,
          mkUsage (runPipeline cfgH envHappy
            (initState cfgH "t" "u" "r" "jobdesc" [])).1),
          [.usageRecorded "t" "u" "r" ((runPipeline cfgH envHappy
            (initState cfgH "t" "u" "r" "jobdesc" [])).1).total_tokens],
          ((runPipeline cfgH envHappy
            (initState cfgH "t" "u" "r" "jobdesc" [])).1).model_calls) :=
  ⟨(quota_denial_and_usage_recording cfgH envHappy "t" "u" "r" "jobdesc" []).1
      "no-credit",
    (quota_denial_and_usage_recording cfgH envHappy "t" "u" "r" "jobdesc" []).2
      (runPipeline cfgH envHappy (initState cfgH "t" "u" "r" "jobdesc" [])).1
      (by decide)⟩

/-- Witness for C6: a 10-character job description is rejected with
ValidationError under the default 50-character minimum, leaving the
state untouched. -/
theorem short_jd_validation_error_witness :
    runPipeline cfg0 envHappy (initState cfg0 "t" "u" "r" "0123456789" []) =
      (initState cfg0 "t" "u" "r" "0123456789" [],
        some (.validationError "job description text below minimum length")) ∧
      (initState cfg0 "t" "u" "r" "0123456789" []).model_calls = 0 ∧
      (initState cfg0 "t" "u" "r" "0123456789" []).stage_trace = [] ∧
      (initState cfg0 "t" "u" "r" "0123456789" []).invoke_log = [] :=
  short_jd_validation_error cfg0 envHappy "t" "u" "r" "0123456789" [] (by decide)

/-- Witness for C7 at the always-malformed stubs: the scorer is invoked
twice (the second time with the stricter follow-up), falls back to all
scores 0.5, and records a non-fatal schema error. -/
theorem validation_retry_and_fallbacks_witness :
    (runScorerStage cfgH envBad
        (initState cfgH "t" "u" "r" "jobdesc" [])).scores = some fallbackScores ∧
      (runScorerStage cfgH envBad
        (initState cfgH "t" "u" "r" "jobdesc" [])).errors =
        (initState cfgH "t" "u" "r" "jobdesc" []).errors ++
          [schemaErrorRecord .CompatibilityScoring] ∧
      (runScorerStage cfgH envBad
        (initState cfgH "t" "u" "r" "jobdesc" [])).invoke_log =
        (initState cfgH "t" "u" "r" "jobdesc" []).invoke_log ++
          [scoreRequest (enterStage (initState cfgH "t" "u" "r" "jobdesc" [])
            .CompatibilityScoring),
            stricter (scoreRequest (enterStage
              (initState cfgH "t" "u" "r" "jobdesc" []) .CompatibilityScoring))] :=
  (validation_retry_and_fallbacks cfgH envBad).2.2.2.1
    (initState cfgH "t" "u" "r" "jobdesc" []) "bad" "bad" ⟨1, 2⟩ ⟨1, 2⟩ rfl rfl

/-- Witness for C8: a 401 with a stored refresh token and a successful
refresh re-sends the request once with the new Bearer token. -/
theorem apiClient_request_behavior_witness :
    clientRequest csW fenvW =
      ((if respOk fenvW.retryResponse then .success fenvW.retryResponse
          else .apiError fenvW.retryResponse.status (errMessage fenvW.retryResponse)),
        [.sentRequest (authHeaderFor csW.accessToken), .sentRefresh "rt",
          .tokenRefreshed tkW, .sentRequest (some ("Bearer " ++ tkW.access_token))]) :=
  (apiClient_request_behavior csW fenvW).1 "rt" tkW rfl (by decide) rfl rfl

/-- Witness for C9: a too-short password records a password error and no
registration request is made. -/
theorem register_submit_guard_witness :
    (validateReg regFormBad).password.isSome = true ∧
      handleSubmitReg regFormBad = none :=
  (register_submit_guard regFormBad).2.2.2.1 (by decide)

end JobFit
